import Mathlib

/-!
# Verification of the assay-dashboard backend's push/sync core

Shallow embedding of the push-notification delivery and sync-reconciliation
core of the assay-dashboard backend:

* `routers/notifications.py` — `send_push_notification`, `send_not_ready_notification`
  (channel routing, payload and collapse-key construction);
* `routers/sync.py` — `push_data` (last-writer-wins reconciliation of four
  entity types, per-record error isolation, ready-transition side effects)
  and `_send_push_for_assay`;
* `routers/assayresult.py` — `mark_assay_ready` (direct ready toggle with
  notification lifecycle);
* `services/apns.py` / `services/fcm.py` — exception-explicit models of the
  provider senders (`send_apns_alert`, `send_apns_silent`, `send_fcm_notification`).

Datetimes are embedded as integers (`Int`); the only values compared are
`modified` timestamps, for which only the order matters.  Database rows are
records in lists; `db.query(...).first()` is `List.find?`; in-place SQLAlchemy
mutation of a fetched row is `updateFirst`; `db.add` appends.  Queries see
pending (uncommitted) adds, matching SQLAlchemy autoflush within one request.
Network sends are modelled two ways: a pure `Dispatch` descriptor recording
channel, visibility, payload and collapse key (used by the reconciliation and
toggle models), and an `Except`-explicit model in which every operation that
can raise in Python is an oracle returning `Except` (used for the
error-propagation analysis).
-/

set_option linter.unusedVariables false

namespace AssayBackend

/-- The three delivery channels of the dispatcher
(`send_push_notification`'s three branches). -/
inductive Channel
  | nativeIOS
  | nativeAndroid
  | fallback
  deriving DecidableEq

/-- The configuration fields the dispatch code branches on.  In `config.py`
`APNS_KEY_ID` defaults to the empty string; Python truthiness makes the empty
string mean "iOS credentials not configured".  The FCM fields are read by
`services/fcm.py` and `routers/notifications.py` (they are supplied through the
settings environment); an empty `fcmServiceAccountPath` means "Android
credentials not configured". -/
structure Config where
  apnsKeyId : String := ""
  fcmServiceAccountPath : String := ""
  deriving DecidableEq

/-- Python truthiness of an optional string: `None` and `""` are falsy. -/
def optStrTruthy : Option String → Bool
  | none => false
  | some s => s != ""

/-- Python rendering of an optional string inside an f-string:
`None` prints as `"None"`. -/
def optShow : Option String → String
  | none => "None"
  | some s => s

/-- `collapse_id = f"assay-ready-{assay_id}" if assay_id else None`
(`routers/notifications.py` line 70).  Python truthiness: `None` and `0`
are falsy. -/
def collapseKey (assayId : Option Int) : Option String :=
  match assayId with
  | none => none
  | some i => if i != 0 then some ("assay-ready-" ++ toString i) else none

/-- The channel decision made by the branch conditions of
`send_push_notification` (`routers/notifications.py` lines 68, 80):
native token present (truthy) and matching platform tag and the channel's
credentials configured, first match wins, else the Expo fallback. -/
def selectChannel (cfg : Config) (deviceToken deviceType : Option String) : Channel :=
  if optStrTruthy deviceToken && (deviceType == some "ios") && (cfg.apnsKeyId != "") then
    Channel.nativeIOS
  else if optStrTruthy deviceToken && (deviceType == some "android")
      && (cfg.fcmServiceAccountPath != "") then
    Channel.nativeAndroid
  else
    Channel.fallback

/-- Descriptor of one outgoing push: which channel was used, whether the
payload is a visible alert or a silent/background push, the payload text,
the provider-level collapse key attached (APNs `apns-collapse-id`), and the
token the send was addressed to. -/
structure Dispatch where
  channel : Channel
  visible : Bool
  title : String
  body : String
  collapseId : Option String
  target : String
  deriving DecidableEq

/-- `send_push_notification` (`routers/notifications.py` lines 52-116) as a
dispatch descriptor.  The APNs branch attaches `collapse_id` derived from
`assay_id`; the FCM branch and the Expo fallback attach no collapse key
(neither passes any collapse/tag field in its payload). -/
def send_push_notification (cfg : Config) (expoPushToken : String)
    (title body : String) (deviceToken deviceType : Option String)
    (assayId : Option Int) : Dispatch :=
  match selectChannel cfg deviceToken deviceType with
  | Channel.nativeIOS =>
      { channel := Channel.nativeIOS, visible := true, title := title, body := body,
        collapseId := collapseKey assayId, target := deviceToken.getD "" }
  | Channel.nativeAndroid =>
      { channel := Channel.nativeAndroid, visible := true, title := title, body := body,
        collapseId := none, target := deviceToken.getD "" }
  | Channel.fallback =>
      { channel := Channel.fallback, visible := true, title := title, body := body,
        collapseId := none, target := expoPushToken }

/-- Body text of `send_not_ready_notification`: `f"Your assay {itemcode} is no
longer ready" if itemcode else "Your assay is no longer ready"`. -/
def notReadyBody (itemcode : Option String) : String :=
  if optStrTruthy itemcode then
    "Your assay " ++ optShow itemcode ++ " is no longer ready"
  else
    "Your assay is no longer ready"

/-- `send_not_ready_notification` (`routers/notifications.py` lines 119-179) as
a dispatch descriptor.  On every channel this is a visible alert titled
"Assay Not Ready"; in particular the iOS branch calls `send_apns_alert`
with no `collapse_id` argument (it never calls `send_apns_silent`). -/
def send_not_ready_notification (cfg : Config) (expoPushToken : String)
    (assayId : Int) (itemcode : Option String)
    (deviceToken deviceType : Option String) : Dispatch :=
  match selectChannel cfg deviceToken deviceType with
  | Channel.nativeIOS =>
      { channel := Channel.nativeIOS, visible := true, title := "Assay Not Ready",
        body := notReadyBody itemcode, collapseId := none, target := deviceToken.getD "" }
  | Channel.nativeAndroid =>
      { channel := Channel.nativeAndroid, visible := true, title := "Assay Not Ready",
        body := notReadyBody itemcode, collapseId := none, target := deviceToken.getD "" }
  | Channel.fallback =>
      { channel := Channel.fallback, visible := true, title := "Assay Not Ready",
        body := notReadyBody itemcode, collapseId := none, target := expoPushToken }

/-! ## Database rows (`models.py`)

Business columns not read by the sync/notification core (the weight and
fineness numerics `sampleweight` … `loss`) are opaque pass-through payload;
`finalresult` is kept as their representative.  Auto-increment surrogate keys
of notification rows are elided (the code never reads them in this core). -/

/-- `models.User` — the columns touched by the sync core; the remaining
profile columns are opaque pass-through of the same copy-if-present shape,
represented by `name`. -/
structure UserRec where
  id : Int
  name : Option String := none
  modified : Option Int := none
  deriving DecidableEq

/-- `models.AssayResult` — the columns read by the sync/notification core. -/
structure AssayRec where
  id : Int
  customer : Option Int := none
  itemcode : Option String := none
  formcode : Option Int := none
  finalresult : Option Int := none
  ready : Bool := false
  deleted : Option Bool := none
  created : Option Int := none
  modified : Option Int := none
  deriving DecidableEq

/-- `models.SpoilRecord` — structurally identical to `AssayResult` minus the
`ready`/`deleted` flags; opaque columns represented by `itemcode`. -/
structure SpoilRec where
  id : Int
  itemcode : Option String := none
  modified : Option Int := none
  deriving DecidableEq

/-- `models.Loss`. -/
structure LossRec where
  id : Int
  pct : Option Int := none
  modified : Option Int := none
  deriving DecidableEq

/-- `models.Notification`. -/
structure NotifRec where
  userId : Option Int
  assayId : Int
  title : String
  message : String
  read : Bool
  created : Int
  deriving DecidableEq

/-- `models.PushToken` — a device registration: Expo routing token, optional
native APNs/FCM token, platform tag. -/
structure PushTokenRec where
  userId : Int
  token : String
  deviceToken : Option String := none
  deviceType : String
  deriving DecidableEq

/-- The backing store as seen by this core. -/
structure DB where
  users : List UserRec := []
  assays : List AssayRec := []
  spoils : List SpoilRec := []
  losses : List LossRec := []
  notifications : List NotifRec := []
  pushTokens : List PushTokenRec := []
  deriving DecidableEq

/-! ## Incoming sync payloads (`routers/sync.py`) -/

/-- The `modified` value of a raw incoming record: a native datetime, an
ISO-8601 string that parses (`Z` suffix normalized), or an unparseable
string. -/
inductive TimeWire
  | dt (t : Int)
  | iso (t : Int)
  | bad (s : String)
  deriving DecidableEq

/-- `local_modified = data.get('modified'); if isinstance(local_modified, str):
local_modified = datetime.fromisoformat(local_modified.replace('Z', '+00:00'))`
(`routers/sync.py` lines 255-257).  An unparseable string raises `ValueError`,
modelled as `Except.error`. -/
def parseModified : Option TimeWire → Except String (Option Int)
  | none => Except.ok none
  | some (TimeWire.dt t) => Except.ok (some t)
  | some (TimeWire.iso t) => Except.ok (some t)
  | some (TimeWire.bad s) => Except.error ("Invalid isoformat string: " ++ s)

/-- The update guard `local_modified and (existing.modified is None or
local_modified > existing.modified)` (`routers/sync.py` line 266): a datetime
is always truthy and `None` is falsy, so the incoming timestamp must be
present, and either the stored timestamp is absent or strictly older. -/
def shouldApply (incoming stored : Option Int) : Bool :=
  match incoming with
  | none => false
  | some l =>
    match stored with
    | none => true
    | some e => decide (e < l)

/-- Raw incoming user payload (`data.users` dict).  An absent field is an
absent dict key (skipped by the copy loop). -/
structure UserWire where
  id : Int
  name : Option String := none
  modified : Option TimeWire := none
  deriving DecidableEq

/-- Raw incoming assay-result payload (`data.assay_results` dict). -/
structure AssayWire where
  id : Int
  customer : Option Int := none
  itemcode : Option String := none
  formcode : Option Int := none
  finalresult : Option Int := none
  ready : Option Bool := none
  created : Option Int := none
  modified : Option TimeWire := none
  deriving DecidableEq

/-- Raw incoming spoil-record payload. -/
structure SpoilWire where
  id : Int
  itemcode : Option String := none
  modified : Option TimeWire := none
  deriving DecidableEq

/-- Raw incoming loss payload. -/
structure LossWire where
  id : Int
  pct : Option Int := none
  modified : Option TimeWire := none
  deriving DecidableEq

/-- `PushDataRequest`: one sync push batch, four per-type record lists. -/
structure PushBatch where
  users : List UserWire := []
  assay_results : List AssayWire := []
  spoil_records : List SpoilWire := []
  losses : List LossWire := []
  deriving DecidableEq

/-- Copy-if-present of one field: the `for key, value in data.items()` loop
writes a field only when the key is present in the incoming dict. -/
def updOpt (incoming stored : Option α) : Option α :=
  match incoming with
  | some v => some v
  | none => stored

/-- Replace the first element satisfying `p` by its image under `f` — the
in-place mutation of the row returned by `.first()`. -/
def updateFirst (p : α → Bool) (f : α → α) : List α → List α
  | [] => []
  | x :: xs => if p x then f x :: xs else x :: updateFirst p f xs

/-- The `setattr` loop over an existing user row: every incoming key except
`id` that is an attribute of the model is overwritten (`routers/sync.py`
lines 237-239).  The `modified` column receives the parsed timestamp
(the stored form after the commit round-trip). -/
def applyUserFields (ex : UserRec) (w : UserWire) (localModified : Option Int) : UserRec :=
  { ex with
    name := updOpt w.name ex.name,
    modified := match w.modified with
      | some _ => localModified
      | none => ex.modified }

/-- The `setattr` loop over an existing assay row (`routers/sync.py`
lines 267-269). -/
def applyAssayFields (ex : AssayRec) (w : AssayWire) (localModified : Option Int) : AssayRec :=
  { ex with
    customer := updOpt w.customer ex.customer,
    itemcode := updOpt w.itemcode ex.itemcode,
    formcode := updOpt w.formcode ex.formcode,
    finalresult := updOpt w.finalresult ex.finalresult,
    ready := match w.ready with
      | some b => b
      | none => ex.ready,
    created := updOpt w.created ex.created,
    modified := match w.modified with
      | some _ => localModified
      | none => ex.modified }

/-- The `setattr` loop over an existing spoil row. -/
def applySpoilFields (ex : SpoilRec) (w : SpoilWire) (localModified : Option Int) : SpoilRec :=
  { ex with
    itemcode := updOpt w.itemcode ex.itemcode,
    modified := match w.modified with
      | some _ => localModified
      | none => ex.modified }

/-- The `setattr` loop over an existing loss row. -/
def applyLossFields (ex : LossRec) (w : LossWire) (localModified : Option Int) : LossRec :=
  { ex with
    pct := updOpt w.pct ex.pct,
    modified := match w.modified with
      | some _ => localModified
      | none => ex.modified }

/-- `models.User(**user_data)` — insert a brand-new row verbatim. -/
def newUserFromWire (w : UserWire) (localModified : Option Int) : UserRec :=
  { id := w.id, name := w.name, modified := localModified }

/-- `models.AssayResult(**assay_data)` — insert a brand-new row verbatim;
the `ready` and `deleted` columns have defaults `False` applied at flush. -/
def newAssayFromWire (w : AssayWire) (localModified : Option Int) : AssayRec :=
  { id := w.id, customer := w.customer, itemcode := w.itemcode,
    formcode := w.formcode, finalresult := w.finalresult,
    ready := w.ready.getD false, deleted := some false,
    created := w.created, modified := localModified }

/-- `models.SpoilRecord(**spoil_data)`. -/
def newSpoilFromWire (w : SpoilWire) (localModified : Option Int) : SpoilRec :=
  { id := w.id, itemcode := w.itemcode, modified := localModified }

/-- `models.Loss(**loss_data)`. -/
def newLossFromWire (w : LossWire) (localModified : Option Int) : LossRec :=
  { id := w.id, pct := w.pct, modified := localModified }

/-! ## The SQLAlchemy session (`database.py` line 11: `autoflush=False`)

Sessions are created with `autoflush=False`, so a `db.query(...).first()`
sees only *flushed* rows: mutations of already-fetched persistent objects
are visible (the identity map returns the mutated object), but rows added
with `db.add` stay *pending* and invisible to queries until a `db.flush()`
or the final `db.commit()`.  In particular, a batch that inserts the same
brand-new id twice does not deduplicate: the second lookup misses the first
pending row and a second pending row is added. -/

/-- A session: the flushed, query-visible store plus the pending (added but
unflushed) rows per table.  Push tokens are never inserted by this core, so
they have no pending list. -/
structure Sess where
  db : DB
  pendUsers : List UserRec := []
  pendAssays : List AssayRec := []
  pendSpoils : List SpoilRec := []
  pendLosses : List LossRec := []
  pendNotifs : List NotifRec := []
  deriving DecidableEq

/-- `db.flush()`: pending rows of every table enter the transaction's store
and become visible to subsequent queries; the pending lists empty.  (In the
program a flush that violates a constraint raises inside the enclosing
`try`, poisoning the session so the final commit fails anyway; since a
failed commit discards the whole response, the model defers all constraint
checking to the commit.) -/
def flushSess (s : Sess) : Sess :=
  { db := { s.db with
      users := s.db.users ++ s.pendUsers,
      assays := s.db.assays ++ s.pendAssays,
      spoils := s.db.spoils ++ s.pendSpoils,
      losses := s.db.losses ++ s.pendLosses,
      notifications := s.db.notifications ++ s.pendNotifs } }

/-- Whether a list of ids contains a given id (`Int` equality). -/
def containsInt : List Int → Int → Bool
  | [], _ => false
  | x :: xs, i => (x == i) || containsInt xs i

/-- Whether a list of ids is duplicate-free — the primary-key uniqueness
constraint of a table. -/
def nodupInts : List Int → Bool
  | [] => true
  | x :: xs => !(containsInt xs x) && nodupInts xs

/-- The primary-key constraints the database enforces at commit on the four
synced tables.  (Notification rows use an auto-increment surrogate key and
cannot collide; push tokens are not inserted by the sync core.) -/
def commitOk (d : DB) : Bool :=
  nodupInts (d.users.map (fun u => u.id)) &&
  nodupInts (d.assays.map (fun a => a.id)) &&
  nodupInts (d.spoils.map (fun s => s.id)) &&
  nodupInts (d.losses.map (fun s => s.id))

/-- `db.commit()` (`routers/sync.py` line 357): flush the pending rows and
make the transaction durable.  A constraint violation (duplicate primary
key) raises `IntegrityError` — this sits *outside* every per-record `try`
block, so it aborts the whole request with nothing persisted. -/
def commitSess (s : Sess) : Except String DB :=
  let d := (flushSess s).db
  if commitOk d then Except.ok d
  else Except.error "IntegrityError: duplicate key value"

/-! ## The sync reconciler (`push_data`, `routers/sync.py` lines 205-388)

Each per-record `try` block is a `…Core` function returning
`Except String …` (the exception paths of the block); the surrounding
`except` clause that appends `f"{EntityType} {id}: {e}"` to the error list
and continues is the `…Record` wrapper.  Lookups run over the session's
visible rows only (`autoflush=False`); inserts go to the pending lists. -/

/-- `db.query(models.User).filter(models.User.id == user_id).first()`. -/
def findUser (l : List UserRec) (i : Int) : Option UserRec :=
  l.find? (fun u => u.id == i)

/-- `db.query(models.AssayResult).filter(models.AssayResult.id == assay_id).first()`. -/
def findAssay (l : List AssayRec) (i : Int) : Option AssayRec :=
  l.find? (fun a => a.id == i)

/-- `db.query(models.SpoilRecord).filter(...).first()`. -/
def findSpoil (l : List SpoilRec) (i : Int) : Option SpoilRec :=
  l.find? (fun s => s.id == i)

/-- `db.query(models.Loss).filter(...).first()`. -/
def findLoss (l : List LossRec) (i : Int) : Option LossRec :=
  l.find? (fun s => s.id == i)

/-- Message of the "Assay Ready" notification created by the sync path:
`f"Your assay {itemcode} is ready for pickup"`. -/
def syncReadyMessage (itemcode : Option String) : String :=
  "Your assay " ++ optShow itemcode ++ " is ready for pickup"

/-- `_send_push_for_assay` (`routers/sync.py` lines 370-388): for every push
token of the assay's customer, call `send_push_notification` passing only the
Expo routing token, title, body and data — `device_token`, `device_type` and
`assay_id` are left at their `None` defaults.  Each send is wrapped in
`try/except: pass`. -/
def send_push_for_assay (cfg : Config) (db : DB) (a : AssayRec) : List Dispatch :=
  (db.pushTokens.filter (fun t => some t.userId == a.customer)).map
    (fun t => send_push_notification cfg t.token "Assay Ready"
      (syncReadyMessage a.itemcode) none none none)

/-- Per-record result of one sync `try` block: the session afterwards, the
pushes dispatched, the increment of the per-type synced counter and of the
notifications-created counter. -/
structure StepOut where
  sess : Sess
  dispatches : List Dispatch := []
  synced : Nat := 0
  notifs : Nat := 0
  deriving DecidableEq

/-- The `try` block for one incoming user record (`routers/sync.py`
lines 226-245): look up the visible rows, update in place when the incoming
timestamp wins, otherwise add a pending insert. -/
def syncUserCore (s : Sess) (w : UserWire) : Except String StepOut :=
  match parseModified w.modified with
  | Except.error e => Except.error e
  | Except.ok localModified =>
    match findUser s.db.users w.id with
    | some existing =>
        if shouldApply localModified existing.modified then
          let users' := updateFirst (fun u => u.id == w.id)
            (fun u => applyUserFields u w localModified) s.db.users
          Except.ok { sess := { s with db := { s.db with users := users' } }, synced := 1 }
        else
          Except.ok { sess := s }
    | none =>
        Except.ok { sess := { s with
          pendUsers := s.pendUsers ++ [newUserFromWire w localModified] }, synced := 1 }

/-- The `try` block for one incoming assay-result record (`routers/sync.py`
lines 251-306): last-writer-wins field update, plus the ready-transition side
effects — a pending notification record and pushes when an update flips
`ready` from falsy to true; a brand-new record becomes a pending insert, and
if it arrives already ready the code calls `db.flush()` (to obtain the id)
before adding the notification and pushing. -/
def syncAssayCore (cfg : Config) (now : Int) (s : Sess) (w : AssayWire) :
    Except String StepOut :=
  match parseModified w.modified with
  | Except.error e => Except.error e
  | Except.ok localModified =>
    let localReady := w.ready.getD false
    match findAssay s.db.assays w.id with
    | some existing =>
        let wasReady := existing.ready
        if shouldApply localModified existing.modified then
          let updated := applyAssayFields existing w localModified
          let assays' := updateFirst (fun a => a.id == w.id)
            (fun a => applyAssayFields a w localModified) s.db.assays
          let s1 : Sess := { s with db := { s.db with assays := assays' } }
          if localReady && !wasReady then
            let notif : NotifRec :=
              { userId := updated.customer, assayId := updated.id, title := "Assay Ready",
                message := syncReadyMessage updated.itemcode, read := false, created := now }
            Except.ok
              { sess := { s1 with pendNotifs := s1.pendNotifs ++ [notif] },
                dispatches := send_push_for_assay cfg s1.db updated,
                synced := 1, notifs := 1 }
          else
            Except.ok { sess := s1, synced := 1 }
        else
          Except.ok { sess := s }
    | none =>
        let newAssay := newAssayFromWire w localModified
        let s1 : Sess := { s with pendAssays := s.pendAssays ++ [newAssay] }
        if localReady then
          let s2 := flushSess s1
          let notif : NotifRec :=
            { userId := newAssay.customer, assayId := newAssay.id, title := "Assay Ready",
              message := syncReadyMessage newAssay.itemcode, read := false, created := now }
          Except.ok
            { sess := { s2 with pendNotifs := s2.pendNotifs ++ [notif] },
              dispatches := send_push_for_assay cfg s2.db newAssay,
              synced := 1, notifs := 1 }
        else
          Except.ok { sess := s1, synced := 1 }

/-- The `try` block for one incoming spoil record (`routers/sync.py`
lines 313-330). -/
def syncSpoilCore (s : Sess) (w : SpoilWire) : Except String StepOut :=
  match parseModified w.modified with
  | Except.error e => Except.error e
  | Except.ok localModified =>
    match findSpoil s.db.spoils w.id with
    | some existing =>
        if shouldApply localModified existing.modified then
          let spoils' := updateFirst (fun x => x.id == w.id)
            (fun x => applySpoilFields x w localModified) s.db.spoils
          Except.ok { sess := { s with db := { s.db with spoils := spoils' } }, synced := 1 }
        else
          Except.ok { sess := s }
    | none =>
        Except.ok { sess := { s with
          pendSpoils := s.pendSpoils ++ [newSpoilFromWire w localModified] }, synced := 1 }

/-- The `try` block for one incoming loss record (`routers/sync.py`
lines 336-353). -/
def syncLossCore (s : Sess) (w : LossWire) : Except String StepOut :=
  match parseModified w.modified with
  | Except.error e => Except.error e
  | Except.ok localModified =>
    match findLoss s.db.losses w.id with
    | some existing =>
        if shouldApply localModified existing.modified then
          let losses' := updateFirst (fun x => x.id == w.id)
            (fun x => applyLossFields x w localModified) s.db.losses
          Except.ok { sess := { s with db := { s.db with losses := losses' } }, synced := 1 }
        else
          Except.ok { sess := s }
    | none =>
        Except.ok { sess := { s with
          pendLosses := s.pendLosses ++ [newLossFromWire w localModified] }, synced := 1 }

/-- Running state of one `push_data` pass: the session, the pushes sent so
far, the response counters and the error list. -/
structure SyncOut where
  sess : Sess
  dispatches : List Dispatch := []
  usersSynced : Nat := 0
  assayResultsSynced : Nat := 0
  spoilRecordsSynced : Nat := 0
  lossesSynced : Nat := 0
  notificationsCreated : Nat := 0
  errors : List String := []
  deriving DecidableEq

/-- One user record processed under the per-record `except` clause
(`routers/sync.py` lines 246-247). -/
def syncUserRecord (st : SyncOut) (w : UserWire) : SyncOut :=
  match syncUserCore st.sess w with
  | Except.ok r =>
      { st with sess := r.sess, usersSynced := st.usersSynced + r.synced }
  | Except.error e =>
      { st with errors := st.errors ++ ["User " ++ toString w.id ++ ": " ++ e] }

/-- One assay record processed under the per-record `except` clause
(`routers/sync.py` lines 308-309). -/
def syncAssayRecord (cfg : Config) (now : Int) (st : SyncOut) (w : AssayWire) : SyncOut :=
  match syncAssayCore cfg now st.sess w with
  | Except.ok r =>
      { st with
        sess := r.sess, dispatches := st.dispatches ++ r.dispatches,
        assayResultsSynced := st.assayResultsSynced + r.synced,
        notificationsCreated := st.notificationsCreated + r.notifs }
  | Except.error e =>
      { st with errors := st.errors ++ ["AssayResult " ++ toString w.id ++ ": " ++ e] }

/-- One spoil record processed under the per-record `except` clause
(`routers/sync.py` lines 331-332). -/
def syncSpoilRecord (st : SyncOut) (w : SpoilWire) : SyncOut :=
  match syncSpoilCore st.sess w with
  | Except.ok r =>
      { st with sess := r.sess, spoilRecordsSynced := st.spoilRecordsSynced + r.synced }
  | Except.error e =>
      { st with errors := st.errors ++ ["SpoilRecord " ++ toString w.id ++ ": " ++ e] }

/-- One loss record processed under the per-record `except` clause
(`routers/sync.py` lines 354-355). -/
def syncLossRecord (st : SyncOut) (w : LossWire) : SyncOut :=
  match syncLossCore st.sess w with
  | Except.ok r =>
      { st with sess := r.sess, lossesSynced := st.lossesSynced + r.synced }
  | Except.error e =>
      { st with errors := st.errors ++ ["Loss " ++ toString w.id ++ ": " ++ e] }

/-- The four per-type folds of one `push_data` pass, before the commit. -/
def push_data_folds (cfg : Config) (now : Int) (db : DB) (batch : PushBatch) : SyncOut :=
  let st0 : SyncOut := { sess := { db := db } }
  let st1 := batch.users.foldl syncUserRecord st0
  let st2 := batch.assay_results.foldl (syncAssayRecord cfg now) st1
  let st3 := batch.spoil_records.foldl syncSpoilRecord st2
  batch.losses.foldl syncLossRecord st3

/-- `push_data` (`routers/sync.py` lines 205-367): process users, then assay
results, then spoil records, then losses, record by record; then the single
`db.commit()` at line 357, *outside* every per-record `try`, persists the
surviving mutations — or raises on a constraint violation, aborting the
whole request with nothing persisted and no error entry recorded. -/
def push_data (cfg : Config) (now : Int) (db : DB) (batch : PushBatch) :
    Except String SyncOut :=
  let st := push_data_folds cfg now db batch
  match commitSess st.sess with
  | Except.ok d => Except.ok { st with sess := { db := d } }
  | Except.error e => Except.error e

/-! ## The direct ready toggle (`mark_assay_ready`,
`routers/assayresult.py` lines 387-510)

Role checks and the testworker customer scoping are upstream guards not
modelled here (the model covers the admin/worker/boss path).  -/

/-- `not_deleted_filter()`: `or_(deleted == False, deleted == None)`. -/
def notDeleted (a : AssayRec) : Bool :=
  a.deleted != some true

/-- The row filter of the `mark_assay_ready` lookup. -/
def markPred (assayId : Int) (a : AssayRec) : Bool :=
  a.id == assayId && notDeleted a

/-- Message of the "Assay Ready" notification created by the direct toggle:
`f"Your assay {itemcode} result is ready"`. -/
def markReadyMessage (itemcode : Option String) : String :=
  "Your assay " ++ optShow itemcode ++ " result is ready"

/-- Result of one `mark_assay_ready` call. -/
structure MarkOut where
  db : DB
  dispatches : List Dispatch := []
  ready : Bool
  notificationsSent : Nat := 0
  deriving DecidableEq

/-- `mark_assay_ready`: find the assay (404 → `none`), flip `ready`.  When the
flip is falsy→true: create an "Assay Ready" notification and push to every
registration of the customer with the registration's native token, platform
tag and the assay id forwarded.  When the flip is true→false: delete all
notification rows of the (customer, assay) pair, create an "Assay Not Ready"
notification, and send a visible not-ready push to every registration. -/
def mark_assay_ready (cfg : Config) (now : Int) (db : DB) (assayId : Int) :
    Option MarkOut :=
  match db.assays.find? (markPred assayId) with
  | none => none
  | some assay =>
    let wasReady := assay.ready
    let toggled : AssayRec := { assay with ready := !assay.ready, modified := some now }
    let assays' := updateFirst (markPred assayId)
      (fun a => { a with ready := !a.ready, modified := some now }) db.assays
    let db1 : DB := { db with assays := assays' }
    if toggled.ready && !wasReady then
      let notif : NotifRec :=
        { userId := toggled.customer, assayId := toggled.id, title := "Assay Ready",
          message := markReadyMessage toggled.itemcode, read := false, created := now }
      let tokens := db1.pushTokens.filter (fun t => some t.userId == toggled.customer)
      some { db := { db1 with notifications := db1.notifications ++ [notif] },
             dispatches := tokens.map (fun t =>
               send_push_notification cfg t.token "Assay Ready"
                 (markReadyMessage toggled.itemcode) t.deviceToken (some t.deviceType)
                 (some toggled.id)),
             ready := true, notificationsSent := tokens.length }
    else if !toggled.ready && wasReady then
      let remaining := db1.notifications.filter (fun n =>
        !(n.assayId == toggled.id && n.userId == toggled.customer))
      let notif : NotifRec :=
        { userId := toggled.customer, assayId := toggled.id, title := "Assay Not Ready",
          message := "Your assay " ++ optShow toggled.itemcode ++ " is no longer ready",
          read := false, created := now }
      let tokens := db1.pushTokens.filter (fun t => some t.userId == toggled.customer)
      some { db := { db1 with notifications := remaining ++ [notif] },
             dispatches := tokens.map (fun t =>
               send_not_ready_notification cfg t.token toggled.id toggled.itemcode
                 t.deviceToken (some t.deviceType)),
             ready := false }
    else
      some { db := db1, ready := false }

/-! ## Exception-explicit dispatcher models (`services/apns.py`,
`services/fcm.py`, `routers/notifications.py`)

Every Python operation that can raise inside a dispatcher — credential
generation (file read + signing), the HTTP post, JSON decoding of the
response — is an oracle returning `Except String _`; raising is
`Except.error`, a `try/except` is a `match`.  Payload and header assembly
are pure data construction and cannot raise.  A function returning a plain
value (not `Except`) cannot propagate an exception to its caller. -/

/-- A provider HTTP response: status code, body text, optional `apns-id`
header. -/
structure HttpResp where
  statusCode : Int
  text : String
  apnsId : Option String := none
  deriving DecidableEq

/-- The dict returned by `send_apns_alert`/`send_apns_silent`: either
`{status, reason, apns_id}` from a response, or `{status: 0, error}` from the
`except` clause. -/
structure ApnsResult where
  status : Int
  reason : Option String := none
  apnsId : Option String := none
  error : Option String := none
  deriving DecidableEq

/-- The dict returned by `send_fcm_notification`: `{status, result}` or
`{status: 0, error}`. -/
structure FcmResult where
  status : Int
  result : Option String := none
  error : Option String := none
  deriving DecidableEq

/-- `send_apns_alert` (`services/apns.py` lines 35-83): the whole body is one
`try` block — token generation, the HTTP/2 post (a function of the bearer
token) — whose exception is converted to `{status: 0, error: str(e)}`. -/
def send_apns_alertE (getToken : Except String String)
    (post : String → Except String HttpResp) : ApnsResult :=
  match (do
      let tok ← getToken
      let resp ← post tok
      pure resp : Except String HttpResp) with
  | Except.ok resp =>
      { status := resp.statusCode, reason := some resp.text, apnsId := resp.apnsId }
  | Except.error e => { status := 0, error := some e }

/-- `send_apns_silent` (`services/apns.py` lines 86-131): same boundary as the
alert sender, background payload with a mandatory collapse id. -/
def send_apns_silentE (getToken : Except String String)
    (post : String → Except String HttpResp) : ApnsResult :=
  match (do
      let tok ← getToken
      let resp ← post tok
      pure resp : Except String HttpResp) with
  | Except.ok resp =>
      { status := resp.statusCode, reason := some resp.text, apnsId := resp.apnsId }
  | Except.error e => { status := 0, error := some e }

/-- `send_fcm_notification` (`services/fcm.py` lines 31-77): token exchange,
HTTP post and `response.json()` all inside one `try` block. -/
def send_fcm_notificationE (getAccessToken : Except String String)
    (post : String → Except String HttpResp)
    (parseJson : String → Except String String) : FcmResult :=
  match (do
      let tok ← getAccessToken
      let resp ← post tok
      let js ← parseJson resp.text
      pure (resp.statusCode, js) : Except String (Int × String)) with
  | Except.ok r => { status := r.1, result := some r.2 }
  | Except.error e => { status := 0, error := some e }

/-- What a dispatcher call returns to its caller: the APNs dict, the FCM dict,
the decoded Expo response, or `None` (the Expo `except` clause returns
`None`). -/
inductive PushOutcome
  | apnsRes (r : ApnsResult)
  | fcmRes (r : FcmResult)
  | expoRes (r : Option String)
  deriving DecidableEq

/-- The failure reason carried by a dispatch result value, if any: the APNs
and FCM dicts carry `error`; the Expo path's `None` carries nothing. -/
def outcomeFailureReason : PushOutcome → Option String
  | PushOutcome.apnsRes r => r.error
  | PushOutcome.fcmRes r => r.error
  | PushOutcome.expoRes _ => none

/-- The collection of raisable external operations a dispatcher call may
touch: APNs JWT generation and post, FCM token exchange, post and JSON
decode, and the Expo post + JSON decode. -/
structure NetOracles where
  apnsToken : Except String String
  apnsPost : String → Except String HttpResp
  fcmToken : Except String String
  fcmPost : String → Except String HttpResp
  fcmJson : String → Except String String
  expoPost : Except String String

/-- `send_push_notification` (`routers/notifications.py` lines 52-116) in the
exception-explicit model.  The function itself may raise only where the
Python can: its branch conditions and logging are pure, the APNs and FCM
branches return the sub-dispatcher's dict (those senders catch internally),
and the Expo branch is a `try` block returning `None` on exception. -/
def send_push_notificationE (cfg : Config) (net : NetOracles)
    (deviceToken deviceType : Option String) : Except String PushOutcome :=
  if optStrTruthy deviceToken && (deviceType == some "ios") && (cfg.apnsKeyId != "") then
    Except.ok (PushOutcome.apnsRes (send_apns_alertE net.apnsToken net.apnsPost))
  else if optStrTruthy deviceToken && (deviceType == some "android")
      && (cfg.fcmServiceAccountPath != "") then
    Except.ok (PushOutcome.fcmRes
      (send_fcm_notificationE net.fcmToken net.fcmPost net.fcmJson))
  else
    Except.ok (PushOutcome.expoRes
      (match net.expoPost with
       | Except.ok js => some js
       | Except.error _ => none))

/-- `send_not_ready_notification` (`routers/notifications.py` lines 119-179)
in the exception-explicit model: identical boundary structure, visible alert
on every channel. -/
def send_not_ready_notificationE (cfg : Config) (net : NetOracles)
    (deviceToken deviceType : Option String) : Except String PushOutcome :=
  if optStrTruthy deviceToken && (deviceType == some "ios") && (cfg.apnsKeyId != "") then
    Except.ok (PushOutcome.apnsRes (send_apns_alertE net.apnsToken net.apnsPost))
  else if optStrTruthy deviceToken && (deviceType == some "android")
      && (cfg.fcmServiceAccountPath != "") then
    Except.ok (PushOutcome.fcmRes
      (send_fcm_notificationE net.fcmToken net.fcmPost net.fcmJson))
  else
    Except.ok (PushOutcome.expoRes
      (match net.expoPost with
       | Except.ok js => some js
       | Except.error _ => none))

/-! ## Derived observations used in the specification statements -/

/-- Whether the `modified` value of an incoming record parses (the record
survives its `try` block in the model). -/
def parseOk (m : Option TimeWire) : Bool :=
  match parseModified m with
  | Except.ok _ => true
  | Except.error _ => false

/-- The error entry `push_data` produces for an incoming user record,
if any. -/
def userSyncError (w : UserWire) : Option String :=
  match parseModified w.modified with
  | Except.error e => some ("User " ++ toString w.id ++ ": " ++ e)
  | Except.ok _ => none

/-- The error entry `push_data` produces for an incoming assay record,
if any. -/
def assaySyncError (w : AssayWire) : Option String :=
  match parseModified w.modified with
  | Except.error e => some ("AssayResult " ++ toString w.id ++ ": " ++ e)
  | Except.ok _ => none

/-- The error entry `push_data` produces for an incoming spoil record,
if any. -/
def spoilSyncError (w : SpoilWire) : Option String :=
  match parseModified w.modified with
  | Except.error e => some ("SpoilRecord " ++ toString w.id ++ ": " ++ e)
  | Except.ok _ => none

/-- The error entry `push_data` produces for an incoming loss record,
if any. -/
def lossSyncError (w : LossWire) : Option String :=
  match parseModified w.modified with
  | Except.error e => some ("Loss " ++ toString w.id ++ ": " ++ e)
  | Except.ok _ => none

/-- The error list a batch gives rise to: one entry per failing record,
naming the record's entity type and identifier, in processing order. -/
def expectedErrors (b : PushBatch) : List String :=
  b.users.filterMap userSyncError ++ b.assay_results.filterMap assaySyncError
    ++ b.spoil_records.filterMap spoilSyncError ++ b.losses.filterMap lossSyncError

/-- The batch with its failing records removed. -/
def goodBatch (b : PushBatch) : PushBatch :=
  { users := b.users.filter (fun w => parseOk w.modified),
    assay_results := b.assay_results.filter (fun w => parseOk w.modified),
    spoil_records := b.spoil_records.filter (fun w => parseOk w.modified),
    losses := b.losses.filter (fun w => parseOk w.modified) }

/-- Number of notification rows stored for one (customer, assay) pair. -/
def notifCountFor (db : DB) (c : Option Int) (i : Int) : Nat :=
  (db.notifications.filter (fun n => n.assayId == i && n.userId == c)).length

/-- Extract the value of a successful `Except`, with a fallback. -/
def exceptGetD : Except ε α → α → α
  | Except.ok a, _ => a
  | Except.error _, d => d

/-- Whether a request completed without an uncaught exception. -/
def isOkE : Except ε α → Bool
  | Except.ok _ => true
  | Except.error _ => false

/-! ## Merged view of a session

`mXs s` is the table as the commit will persist it: visible rows followed by
pending inserts.  `flushSess` preserves every merged table, an update hits
the visible prefix, and an insert appends — so the commit-level content of a
session evolves exactly like a single list per table. -/

/-- The user table as the commit will persist it. -/
def mUsers (s : Sess) : List UserRec := s.db.users ++ s.pendUsers

/-- The assay table as the commit will persist it. -/
def mAssays (s : Sess) : List AssayRec := s.db.assays ++ s.pendAssays

/-- The spoil table as the commit will persist it. -/
def mSpoils (s : Sess) : List SpoilRec := s.db.spoils ++ s.pendSpoils

/-- The loss table as the commit will persist it. -/
def mLosses (s : Sess) : List LossRec := s.db.losses ++ s.pendLosses

/-- The notification table as the commit will persist it. -/
def mNotifs (s : Sess) : List NotifRec := s.db.notifications ++ s.pendNotifs

/-! ## Session-level view of the reconciliation folds

`push_data` threads a `SyncOut`; the lemmas below factor each per-record step
into its effect on the session alone (the counters, dispatch log and error
list never feed back into record processing). -/

/-- The session after one user record (errors leave the session untouched). -/
def sessStepU (s : Sess) (w : UserWire) : Sess :=
  match syncUserCore s w with
  | Except.ok r => r.sess
  | Except.error _ => s

/-- The session after one assay record. -/
def sessStepA (cfg : Config) (now : Int) (s : Sess) (w : AssayWire) : Sess :=
  match syncAssayCore cfg now s w with
  | Except.ok r => r.sess
  | Except.error _ => s

/-- The session after one spoil record. -/
def sessStepS (s : Sess) (w : SpoilWire) : Sess :=
  match syncSpoilCore s w with
  | Except.ok r => r.sess
  | Except.error _ => s

/-- The session after one loss record. -/
def sessStepL (s : Sess) (w : LossWire) : Sess :=
  match syncLossCore s w with
  | Except.ok r => r.sess
  | Except.error _ => s

/-- The session after the user list of a batch. -/
def sessAfterU (s : Sess) (l : List UserWire) : Sess :=
  l.foldl sessStepU s

/-- The session after the assay list of a batch. -/
def sessAfterA (cfg : Config) (now : Int) (s : Sess) (l : List AssayWire) : Sess :=
  l.foldl (sessStepA cfg now) s

/-- The session after the spoil list of a batch. -/
def sessAfterS (s : Sess) (l : List SpoilWire) : Sess :=
  l.foldl sessStepS s

/-- The session after the loss list of a batch. -/
def sessAfterL (s : Sess) (l : List LossWire) : Sess :=
  l.foldl sessStepL s

/-- iOS credentials configured, Android credentials not. -/
def cfgIos : Config where
  apnsKeyId := "KEY1"
  fcmServiceAccountPath := ""

/-- A registration of customer 7 with platform tag `ios` and a populated
native APNs token. -/
def tokIos : PushTokenRec where
  userId := 7
  token := "ExpoTok"
  deviceToken := some "dtok123"
  deviceType := "ios"

/-- A stored assay of customer 7: not ready, no modified timestamp. -/
def fxAssay : AssayRec where
  id := 1
  customer := some 7
  itemcode := some "AB12"

/-- A store holding `fxAssay` and the iOS registration. -/
def fxDb : DB where
  assays := [fxAssay]
  pushTokens := [tokIos]

/-- An incoming update for `fxAssay` carrying no `modified` value. -/
def fxWireNoTs : AssayWire where
  id := 1
  itemcode := some "NEW"

/-- A brand-new incoming assay arriving already ready, timestamp 5. -/
def fxWireNewReady : AssayWire where
  id := 2
  customer := some 7
  itemcode := some "XY"
  ready := some true
  modified := some (TimeWire.dt 5)

/-- A stored ready assay of customer 7, modified at 10. -/
def fxAssayReady : AssayRec where
  id := 1
  customer := some 7
  itemcode := some "AB12"
  ready := true
  modified := some 10

/-- A store holding the ready assay and the iOS registration. -/
def fxDbReady : DB where
  assays := [fxAssayReady]
  pushTokens := [tokIos]

/-- An incoming record reverting `fxAssayReady` to not-ready under a newer
timestamp. -/
def fxWireRevert : AssayWire where
  id := 1
  ready := some false
  modified := some (TimeWire.dt 20)

/-- An incoming update for `fxAssay` under timestamp 30, not ready. -/
def fxWireUpd : AssayWire where
  id := 1
  finalresult := some 99
  modified := some (TimeWire.iso 30)

/-- An incoming user record whose `modified` string does not parse. -/
def fxUserBad : UserWire where
  id := 3
  name := some "n"
  modified := some (TimeWire.bad "oops")

/-- The dispatch the sync path actually produces for `fxWireNewReady`. -/
def fxFallbackDispatch : Dispatch where
  channel := Channel.fallback
  visible := true
  title := "Assay Ready"
  body := "Your assay XY is ready for pickup"
  collapseId := none
  target := "ExpoTok"

/-- The dispatch the revert path actually produces for `fxAssayReady` over the
iOS registration. -/
def fxNotReadyDispatch : Dispatch where
  channel := Channel.nativeIOS
  visible := true
  title := "Assay Not Ready"
  body := "Your assay AB12 is no longer ready"
  collapseId := none
  target := "dtok123"

/-- Fallback value for extracting a `mark_assay_ready` result. -/
def fxMarkDefault : MarkOut where
  db := fxDb
  ready := false

/-- State after toggling `fxAssay` ready at time 10. -/
def fxT1 : MarkOut := (mark_assay_ready cfgIos 10 fxDb 1).getD fxMarkDefault

/-- State after toggling back to not-ready at time 20. -/
def fxT2 : MarkOut := (mark_assay_ready cfgIos 20 fxT1.db 1).getD fxMarkDefault

/-- State after toggling ready again at time 30. -/
def fxT3 : MarkOut := (mark_assay_ready cfgIos 30 fxT2.db 1).getD fxMarkDefault

/-- The result of reverting `fxAssayReady` through the direct API at time 20. -/
def fxRevertOut : MarkOut := (mark_assay_ready cfgIos 20 fxDbReady 1).getD fxMarkDefault

/-- The response of pushing the single new-and-ready assay to `fxDb`. -/
def fxC2Out : SyncOut :=
  exceptGetD (push_data cfgIos 100 fxDb { assay_results := [fxWireNewReady] })
    { sess := { db := fxDb } }

/-- First of two incoming user records sharing the brand-new id 50. -/
def fxDupWire1 : UserWire where
  id := 50
  name := some "a"
  modified := some (TimeWire.dt 1)

/-- Second incoming user record with the same brand-new id 50. -/
def fxDupWire2 : UserWire where
  id := 50
  name := some "b"
  modified := some (TimeWire.dt 2)

/-- A batch inserting the same brand-new user id twice: with
`autoflush=False` the second lookup misses the first, still-pending row. -/
def fxDupBatch : PushBatch where
  users := [fxDupWire1, fxDupWire2]

/-- A ten-record batch with exactly one malformed record (user 12 carries an
unparseable `modified` string). -/
def fxTenBatch : PushBatch where
  users :=
    [{ id := 11, modified := some (TimeWire.dt 1) },
     { id := 12, modified := some (TimeWire.bad "junk") },
     { id := 13, modified := some (TimeWire.dt 1) }]
  assay_results :=
    [{ id := 21, modified := some (TimeWire.dt 1) },
     { id := 22, modified := some (TimeWire.dt 1) },
     { id := 23, modified := some (TimeWire.dt 1) }]
  spoil_records :=
    [{ id := 31, modified := some (TimeWire.dt 1) },
     { id := 32, modified := some (TimeWire.dt 1) }]
  losses :=
    [{ id := 41, modified := some (TimeWire.dt 1) },
     { id := 42, modified := some (TimeWire.dt 1) }]

/-- The response of pushing the ten-record batch to `fxDb`. -/
def fxTenOut : SyncOut :=
  exceptGetD (push_data cfgIos 0 fxDb fxTenBatch) { sess := { db := fxDb } }

/-- Oracles in which only the Expo relay call fails. -/
def fxOraclesExpoFail : NetOracles where
  apnsToken := Except.ok "jwt"
  apnsPost := fun _ => Except.ok { statusCode := 200, text := "ok" }
  fcmToken := Except.ok "oauth"
  fcmPost := fun _ => Except.ok { statusCode := 200, text := "ok" }
  fcmJson := fun s => Except.ok s
  expoPost := Except.error "Connection refused"

/-! ## General lemmas about the list primitives -/

theorem find?_updateFirst_same (p : α → Bool) (f : α → α)
    (hf : ∀ x, p (f x) = p x) :
    ∀ l : List α, (updateFirst p f l).find? p = (l.find? p).map f := by
  intro l
  induction l with
  | nil => rfl
  | cons x xs ih =>
    by_cases hx : p x = true
    · simp [updateFirst, List.find?, hx, hf]
    · simp only [Bool.not_eq_true] at hx
      simp [updateFirst, List.find?, hx, ih]

theorem map_updateFirst (p : α → Bool) (f : α → α) (g : α → β)
    (hg : ∀ x, g (f x) = g x) :
    ∀ l : List α, (updateFirst p f l).map g = l.map g := by
  intro l
  induction l with
  | nil => rfl
  | cons x xs ih =>
    by_cases hx : p x = true
    · simp [updateFirst, hx, hg]
    · simp only [Bool.not_eq_true] at hx
      simp [updateFirst, hx, ih]

theorem filter_not_filter (p : α → Bool) (l : List α) :
    (l.filter (fun x => !(p x))).filter p = [] := by
  induction l with
  | nil => rfl
  | cons x xs ih =>
    cases hx : p x with
    | true => simp [List.filter, hx, ih]
    | false => simp [List.filter, hx, ih]

/-! ## Lemmas about the update guard -/

/-- If parsing yields a present timestamp, the incoming `modified` key was
present. -/
theorem parseModified_isSome (m : Option TimeWire) (t : Int)
    (h : parseModified m = Except.ok (some t)) : m.isSome = true := by
  cases m with
  | none => simp [parseModified] at h
  | some tw => rfl

/-! ## Branch characterizations of the per-record sync step -/

theorem syncAssayRecord_of_core_ok (cfg : Config) (now : Int) (st : SyncOut)
    (w : AssayWire) (r : StepOut)
    (h : syncAssayCore cfg now st.sess w = Except.ok r) :
    syncAssayRecord cfg now st w =
      { st with
        sess := r.sess, dispatches := st.dispatches ++ r.dispatches,
        assayResultsSynced := st.assayResultsSynced + r.synced,
        notificationsCreated := st.notificationsCreated + r.notifs } := by
  unfold syncAssayRecord
  rw [h]

theorem syncAssayCore_skip (cfg : Config) (now : Int) (s : Sess)
    (w : AssayWire) (ex : AssayRec) (lm : Option Int)
    (hfind : findAssay s.db.assays w.id = some ex)
    (hparse : parseModified w.modified = Except.ok lm)
    (hsk : shouldApply lm ex.modified = false) :
    syncAssayCore cfg now s w = Except.ok { sess := s } := by
  simp [syncAssayCore, hparse, hfind, hsk]

theorem syncAssayRecord_skip (cfg : Config) (now : Int) (st : SyncOut)
    (w : AssayWire) (ex : AssayRec) (lm : Option Int)
    (hfind : findAssay st.sess.db.assays w.id = some ex)
    (hparse : parseModified w.modified = Except.ok lm)
    (hsk : shouldApply lm ex.modified = false) :
    syncAssayRecord cfg now st w = st := by
  rw [syncAssayRecord_of_core_ok cfg now st w _
    (syncAssayCore_skip cfg now st.sess w ex lm hfind hparse hsk)]
  cases st
  simp

theorem syncAssayCore_update (cfg : Config) (now : Int) (s : Sess)
    (w : AssayWire) (ex : AssayRec) (lm : Option Int)
    (hfind : findAssay s.db.assays w.id = some ex)
    (hparse : parseModified w.modified = Except.ok lm)
    (hap : shouldApply lm ex.modified = true) :
    syncAssayCore cfg now s w =
      (let updated := applyAssayFields ex w lm
       let assays' := updateFirst (fun a => a.id == w.id)
         (fun a => applyAssayFields a w lm) s.db.assays
       let s1 : Sess := { s with db := { s.db with assays := assays' } }
       let notif : NotifRec :=
         { userId := updated.customer, assayId := updated.id, title := "Assay Ready",
           message := syncReadyMessage updated.itemcode, read := false, created := now }
       if w.ready.getD false && !ex.ready then
         Except.ok
           { sess := { s1 with pendNotifs := s1.pendNotifs ++ [notif] },
             dispatches := send_push_for_assay cfg s1.db updated,
             synced := 1, notifs := 1 }
       else
         Except.ok { sess := s1, synced := 1 }) := by
  simp only [syncAssayCore, hparse, hfind, hap, if_true]

theorem syncAssayCore_insert (cfg : Config) (now : Int) (s : Sess)
    (w : AssayWire) (lm : Option Int)
    (hfind : findAssay s.db.assays w.id = none)
    (hparse : parseModified w.modified = Except.ok lm) :
    syncAssayCore cfg now s w =
      (let newAssay := newAssayFromWire w lm
       let s1 : Sess := { s with pendAssays := s.pendAssays ++ [newAssay] }
       let s2 := flushSess s1
       let notif : NotifRec :=
         { userId := newAssay.customer, assayId := newAssay.id, title := "Assay Ready",
           message := syncReadyMessage newAssay.itemcode, read := false, created := now }
       if w.ready.getD false then
         Except.ok
           { sess := { s2 with pendNotifs := s2.pendNotifs ++ [notif] },
             dispatches := send_push_for_assay cfg s2.db newAssay,
             synced := 1, notifs := 1 }
       else
         Except.ok { sess := s1, synced := 1 }) := by
  simp only [syncAssayCore, hparse, hfind]

/-- Every push issued by the sync path targets the fallback channel with no
collapse key and no native routing: `_send_push_for_assay` leaves
`device_token`, `device_type` and `assay_id` at `None`. -/
theorem send_push_for_assay_fallback (cfg : Config) (db : DB) (a : AssayRec)
    (d : Dispatch) (hd : d ∈ send_push_for_assay cfg db a) :
    d.channel = Channel.fallback ∧ d.collapseId = none ∧ d.visible = true ∧
    d.title = "Assay Ready" := by
  unfold send_push_for_assay at hd
  rcases List.mem_map.mp hd with ⟨t, _, rfl⟩
  exact ⟨rfl, rfl, rfl, rfl⟩

/-- Every not-ready push is a visible alert titled "Assay Not Ready" with no
collapse key, on every channel. -/
theorem send_not_ready_notification_shape (cfg : Config) (ept : String)
    (aid : Int) (ic : Option String) (dt dty : Option String) :
    (send_not_ready_notification cfg ept aid ic dt dty).visible = true ∧
    (send_not_ready_notification cfg ept aid ic dt dty).collapseId = none ∧
    (send_not_ready_notification cfg ept aid ic dt dty).title = "Assay Not Ready" := by
  unfold send_not_ready_notification
  cases selectChannel cfg dt dty <;> exact ⟨rfl, rfl, rfl⟩

/-! ## The claims -/

/-- C9: Channel selection: a registration with platform tag `ios` and a
populated native device token selects the native-iOS channel exactly when iOS
credentials are configured, and the fallback channel when they are not; a
registration with no native device token always selects the fallback channel,
regardless of its platform tag. -/
theorem channel_selection_rule (cfg : Config) :
    (∀ s : String, s ≠ "" →
      selectChannel cfg (some s) (some "ios") =
        if cfg.apnsKeyId ≠ "" then Channel.nativeIOS else Channel.fallback) ∧
    (∀ dtype : Option String, selectChannel cfg none dtype = Channel.fallback) := by
  constructor
  · intro s hs
    by_cases hk : cfg.apnsKeyId = ""
    · simp [selectChannel, optStrTruthy, hk, hs]
    · simp [selectChannel, optStrTruthy, hk, hs]
  · intro dtype
    simp [selectChannel, optStrTruthy]

/-- C9 witness: the rule evaluated at concrete registrations. -/
theorem channel_selection_rule_witness :
    selectChannel cfgIos (some "dtok123") (some "ios") = Channel.nativeIOS ∧
    selectChannel { apnsKeyId := "" } (some "dtok123") (some "ios") = Channel.fallback ∧
    selectChannel cfgIos none (some "android") = Channel.fallback := by
  refine ⟨?_, ?_, ?_⟩
  · have h := (channel_selection_rule cfgIos).1 "dtok123" (by decide)
    simpa [cfgIos] using h
  · have h := (channel_selection_rule { apnsKeyId := "" }).1 "dtok123" (by decide)
    simpa using h
  · exact (channel_selection_rule cfgIos).2 (some "android")

/-- C7 (amended): every raisable operation inside a dispatcher — credential
generation, the HTTP post, JSON decoding — is confined to the dispatcher's
`try` boundary, so no exception propagates to the caller on any channel; a
failure on the native channels is converted into a status-0 result carrying
the reason, while a failure on the Expo fallback path is converted into a
bare `None` result. -/
theorem dispatch_failures_become_results :
    (∀ (cfg : Config) (net : NetOracles) (dt dty : Option String),
      (send_push_notificationE cfg net dt dty).isOk = true) ∧
    (∀ (cfg : Config) (net : NetOracles) (dt dty : Option String),
      (send_not_ready_notificationE cfg net dt dty).isOk = true) ∧
    (∀ (post : String → Except String HttpResp) (e : String),
      send_apns_alertE (Except.error e) post = { status := 0, error := some e }) ∧
    (∀ (tok e : String),
      send_apns_alertE (Except.ok tok) (fun _ => Except.error e) =
        { status := 0, error := some e }) ∧
    (∀ (post : String → Except String HttpResp) (e : String),
      send_apns_silentE (Except.error e) post = { status := 0, error := some e }) ∧
    (∀ (post : String → Except String HttpResp)
        (pj : String → Except String String) (e : String),
      send_fcm_notificationE (Except.error e) post pj =
        { status := 0, error := some e }) ∧
    (∀ (cfg : Config) (net : NetOracles) (e : String) (dty : Option String),
      send_push_notificationE cfg { net with expoPost := Except.error e } none dty =
        Except.ok (PushOutcome.expoRes none)) := by
  refine ⟨?_, ?_, fun _ _ => rfl, fun _ _ => rfl, fun _ _ => rfl, fun _ _ _ => rfl, ?_⟩
  · intro cfg net dt dty
    unfold send_push_notificationE
    split
    · rfl
    · split <;> rfl
  · intro cfg net dt dty
    unfold send_not_ready_notificationE
    split
    · rfl
    · split <;> rfl
  · intro cfg net e dty
    rfl

/-- C7 counterexample: with the Expo relay raising, the fallback path of
`send_push_notification` swallows the exception but returns `None` — a result
value carrying no failure reason, contradicting the claim that every caught
failure is converted into a success-false result *with a reason*. -/
theorem dispatch_fallback_reasonless_counterexample :
    send_push_notificationE cfgIos fxOraclesExpoFail none none =
      Except.ok (PushOutcome.expoRes none) ∧
    outcomeFailureReason (PushOutcome.expoRes none) = none :=
  ⟨rfl, rfl⟩

/-- C1 counterexample: incoming record 1 matches the stored assay, the local
modified timestamp is absent — the claim then requires the incoming fields be
applied — but because the incoming timestamp is also absent the code leaves
the store untouched (`itemcode` stays "AB12", nothing synced, no error). -/
theorem lww_absent_timestamps_counterexample :
    fxAssay.modified = none ∧
    fxWireNoTs.modified = none ∧
    findAssay fxDb.assays fxWireNoTs.id = some fxAssay ∧
    syncAssayRecord cfgIos 0 { sess := { db := fxDb } } fxWireNoTs =
      { sess := { db := fxDb } } := by
  refine ⟨rfl, rfl, rfl, ?_⟩
  decide

/-- C1 (amended): for an incoming sync record whose id matches an existing
local record, the incoming fields are applied if and only if the incoming
modified timestamp is present and either strictly newer than the local
modified timestamp or the local timestamp is absent; ties, older timestamps
and records with no incoming timestamp are silently discarded, leaving the
state unchanged with no error entry. -/
theorem last_writer_wins_guard (cfg : Config) (now : Int) (st : SyncOut)
    (w : AssayWire) (ex : AssayRec) (lm : Option Int)
    (hfind : findAssay st.sess.db.assays w.id = some ex)
    (hparse : parseModified w.modified = Except.ok lm) :
    (shouldApply lm ex.modified = false → syncAssayRecord cfg now st w = st) ∧
    (shouldApply lm ex.modified = true →
      (syncAssayRecord cfg now st w).sess.db.assays =
        updateFirst (fun a => a.id == w.id)
          (fun a => applyAssayFields a w lm) st.sess.db.assays ∧
      (syncAssayRecord cfg now st w).assayResultsSynced =
        st.assayResultsSynced + 1 ∧
      (syncAssayRecord cfg now st w).errors = st.errors) := by
  constructor
  · intro hsk
    exact syncAssayRecord_skip cfg now st w ex lm hfind hparse hsk
  · intro hap
    have hcore := syncAssayCore_update cfg now st.sess w ex lm hfind hparse hap
    by_cases hn : (w.ready.getD false && !ex.ready) = true
    · simp only [hn, if_true] at hcore
      rw [syncAssayRecord_of_core_ok cfg now st w _ hcore]
      exact ⟨rfl, rfl, rfl⟩
    · simp only [Bool.not_eq_true] at hn
      simp only [hn, Bool.false_eq_true, if_false] at hcore
      rw [syncAssayRecord_of_core_ok cfg now st w _ hcore]
      exact ⟨rfl, rfl, rfl⟩

/-- C1 witness: the guard at a concrete store — timestamp 30 beats stored 10,
and the tie at 10 is discarded. -/
theorem last_writer_wins_guard_witness :
    (syncAssayRecord cfgIos 0 { sess := { db := fxDbReady } } fxWireUpd).sess.db.assays =
      updateFirst (fun a => a.id == fxWireUpd.id)
        (fun a => applyAssayFields a fxWireUpd (some 30)) fxDbReady.assays ∧
    (syncAssayRecord cfgIos 0 { sess := { db := fxDbReady } } fxWireUpd).assayResultsSynced =
      0 + 1 ∧
    (syncAssayRecord cfgIos 0 { sess := { db := fxDbReady } } fxWireUpd).errors = [] :=
  (last_writer_wins_guard cfgIos 0 { sess := { db := fxDbReady } } fxWireUpd
    fxAssayReady (some 30) (by rfl) (by rfl)).2 (by rfl)

/-- C5: during sync reconciliation, an incoming update flipping an existing
assay's ready flag from true to false under a strictly newer timestamp is
applied as a plain field update — the stored flag becomes false — but no
notification record is created, no push is dispatched, the notification
counter does not move and no error is recorded: the revert-notification path
is not reachable from sync. -/
theorem sync_revert_is_silent_field_update (cfg : Config) (now : Int)
    (st : SyncOut) (w : AssayWire) (ex : AssayRec) (lm : Option Int)
    (hfind : findAssay st.sess.db.assays w.id = some ex)
    (hparse : parseModified w.modified = Except.ok lm)
    (hwas : ex.ready = true) (hnew : w.ready = some false)
    (hap : shouldApply lm ex.modified = true) :
    (syncAssayRecord cfg now st w).sess.db.assays =
      updateFirst (fun a => a.id == w.id)
        (fun a => applyAssayFields a w lm) st.sess.db.assays ∧
    (applyAssayFields ex w lm).ready = false ∧
    (syncAssayRecord cfg now st w).sess.db.notifications =
      st.sess.db.notifications ∧
    (syncAssayRecord cfg now st w).sess.pendNotifs = st.sess.pendNotifs ∧
    (syncAssayRecord cfg now st w).dispatches = st.dispatches ∧
    (syncAssayRecord cfg now st w).notificationsCreated =
      st.notificationsCreated ∧
    (syncAssayRecord cfg now st w).errors = st.errors := by
  have hcore := syncAssayCore_update cfg now st.sess w ex lm hfind hparse hap
  have hn : (w.ready.getD false && !ex.ready) = false := by
    rw [hnew, hwas]; rfl
  simp only [hn, Bool.false_eq_true, if_false] at hcore
  rw [syncAssayRecord_of_core_ok cfg now st w _ hcore]
  refine ⟨rfl, ?_, rfl, rfl, ?_, rfl, rfl⟩
  · simp [applyAssayFields, hnew]
  · simp

/-- C5 witness: the revert wire applied to the ready store. -/
theorem sync_revert_is_silent_field_update_witness :
    (syncAssayRecord cfgIos 0 { sess := { db := fxDbReady } } fxWireRevert).sess.db.assays =
      updateFirst (fun a => a.id == fxWireRevert.id)
        (fun a => applyAssayFields a fxWireRevert (some 20)) fxDbReady.assays ∧
    (applyAssayFields fxAssayReady fxWireRevert (some 20)).ready = false ∧
    (syncAssayRecord cfgIos 0 { sess := { db := fxDbReady } } fxWireRevert).sess.db.notifications =
      fxDbReady.notifications ∧
    (syncAssayRecord cfgIos 0 { sess := { db := fxDbReady } } fxWireRevert).sess.pendNotifs = [] ∧
    (syncAssayRecord cfgIos 0 { sess := { db := fxDbReady } } fxWireRevert).dispatches = [] ∧
    (syncAssayRecord cfgIos 0 { sess := { db := fxDbReady } } fxWireRevert).notificationsCreated =
      0 ∧
    (syncAssayRecord cfgIos 0 { sess := { db := fxDbReady } } fxWireRevert).errors = [] :=
  sync_revert_is_silent_field_update cfgIos 0 { sess := { db := fxDbReady } } fxWireRevert
    fxAssayReady (some 20) (by rfl) (by rfl) (by rfl) (by rfl) (by rfl)

/-- C2 counterexample: a brand-new assay arrives ready while its customer
holds an iOS registration with a native token and iOS credentials are
configured.  One notification record is created, but the single alert goes
out through the generic fallback channel carrying no collapse key — although
the registration's capabilities select the native-iOS channel and the
assay-derived collapse key formula yields "assay-ready-2". -/
theorem sync_ready_push_counterexample :
    push_data cfgIos 100 fxDb { assay_results := [fxWireNewReady] } =
      Except.ok fxC2Out ∧
    fxC2Out.notificationsCreated = 1 ∧
    fxC2Out.dispatches = [fxFallbackDispatch] ∧
    fxFallbackDispatch.channel = Channel.fallback ∧
    fxFallbackDispatch.collapseId = none ∧
    selectChannel cfgIos tokIos.deviceToken (some tokIos.deviceType) =
      Channel.nativeIOS ∧
    collapseKey (some fxWireNewReady.id) = some "assay-ready-2" := by
  refine ⟨by rfl, by decide, by decide, rfl, rfl, by decide, by decide⟩

/-- C2 (amended): each ready transition detected during sync — a brand-new
record arriving ready, or an applied update flipping the flag falsy→true —
creates exactly one notification record, and for every registration of the
customer sends one alert; but because the sync path forwards neither the
native token, nor the platform tag, nor the assay id, every such alert goes
through the generic fallback channel and carries no collapse key. -/
theorem sync_ready_transition_fallback_only (cfg : Config) (now : Int)
    (st : SyncOut) (w : AssayWire) (lm : Option Int)
    (hparse : parseModified w.modified = Except.ok lm)
    (hready : w.ready = some true) :
    (findAssay st.sess.db.assays w.id = none →
      (syncAssayRecord cfg now st w).notificationsCreated =
        st.notificationsCreated + 1 ∧
      mNotifs (syncAssayRecord cfg now st w).sess =
        mNotifs st.sess ++
          [{ userId := (newAssayFromWire w lm).customer,
             assayId := (newAssayFromWire w lm).id, title := "Assay Ready",
             message := syncReadyMessage (newAssayFromWire w lm).itemcode,
             read := false, created := now }] ∧
      (syncAssayRecord cfg now st w).dispatches =
        st.dispatches ++ send_push_for_assay cfg st.sess.db (newAssayFromWire w lm)) ∧
    (∀ ex, findAssay st.sess.db.assays w.id = some ex → ex.ready = false →
      shouldApply lm ex.modified = true →
      (syncAssayRecord cfg now st w).notificationsCreated =
        st.notificationsCreated + 1 ∧
      mNotifs (syncAssayRecord cfg now st w).sess =
        mNotifs st.sess ++
          [{ userId := (applyAssayFields ex w lm).customer,
             assayId := (applyAssayFields ex w lm).id, title := "Assay Ready",
             message := syncReadyMessage (applyAssayFields ex w lm).itemcode,
             read := false, created := now }] ∧
      (syncAssayRecord cfg now st w).dispatches =
        st.dispatches ++ send_push_for_assay cfg st.sess.db (applyAssayFields ex w lm)) ∧
    (∀ d ∈ send_push_for_assay cfg st.sess.db (newAssayFromWire w lm),
      d.channel = Channel.fallback ∧ d.collapseId = none) ∧
    (∀ ex : AssayRec, ∀ d ∈ send_push_for_assay cfg st.sess.db (applyAssayFields ex w lm),
      d.channel = Channel.fallback ∧ d.collapseId = none) := by
  have hr : w.ready.getD false = true := by rw [hready]; rfl
  refine ⟨?_, ?_, ?_, ?_⟩
  · intro hfind
    have hcore := syncAssayCore_insert cfg now st.sess w lm hfind hparse
    simp only [hr, if_true] at hcore
    rw [syncAssayRecord_of_core_ok cfg now st w _ hcore]
    refine ⟨rfl, ?_, rfl⟩
    simp [mNotifs, flushSess, List.append_assoc]
  · intro ex hfind hexr hap
    have hcore := syncAssayCore_update cfg now st.sess w ex lm hfind hparse hap
    have hn : (w.ready.getD false && !ex.ready) = true := by
      rw [hr, hexr]; rfl
    simp only [hn, if_true] at hcore
    rw [syncAssayRecord_of_core_ok cfg now st w _ hcore]
    refine ⟨rfl, ?_, rfl⟩
    simp [mNotifs, List.append_assoc]
  · intro d hd
    have h := send_push_for_assay_fallback cfg st.sess.db (newAssayFromWire w lm) d hd
    exact ⟨h.1, h.2.1⟩
  · intro ex d hd
    have h := send_push_for_assay_fallback cfg st.sess.db (applyAssayFields ex w lm) d hd
    exact ⟨h.1, h.2.1⟩

/-- C2 witness: the new-and-ready case at the concrete store. -/
theorem sync_ready_transition_fallback_only_witness :
    (syncAssayRecord cfgIos 100 { sess := { db := fxDb } } fxWireNewReady).notificationsCreated =
      0 + 1 ∧
    mNotifs (syncAssayRecord cfgIos 100 { sess := { db := fxDb } } fxWireNewReady).sess =
      mNotifs { db := fxDb } ++
        [{ userId := (newAssayFromWire fxWireNewReady (some 5)).customer,
           assayId := (newAssayFromWire fxWireNewReady (some 5)).id,
           title := "Assay Ready",
           message := syncReadyMessage (newAssayFromWire fxWireNewReady (some 5)).itemcode,
           read := false, created := 100 }] ∧
    (syncAssayRecord cfgIos 100 { sess := { db := fxDb } } fxWireNewReady).dispatches =
      [] ++ send_push_for_assay cfgIos fxDb (newAssayFromWire fxWireNewReady (some 5)) :=
  (sync_ready_transition_fallback_only cfgIos 100 { sess := { db := fxDb } } fxWireNewReady
    (some 5) (by rfl) (by rfl)).1 (by rfl)

/-- Branch characterization of `mark_assay_ready` when the stored flag is
falsy: the flag flips to true, an "Assay Ready" notification is appended (no
deletion), and one alert per registration is sent with native routing and the
assay-derived collapse id. -/
theorem mark_assay_ready_to_ready (cfg : Config) (now : Int) (db : DB) (i : Int)
    (a : AssayRec)
    (hfind : db.assays.find? (markPred i) = some a)
    (hready : a.ready = false) :
    mark_assay_ready cfg now db i = some
      { db := { db with
          assays := updateFirst (markPred i)
            (fun x => { x with ready := !x.ready, modified := some now }) db.assays,
          notifications := db.notifications ++
            [{ userId := a.customer, assayId := a.id, title := "Assay Ready",
               message := markReadyMessage a.itemcode, read := false, created := now }] },
        dispatches := (db.pushTokens.filter (fun t => some t.userId == a.customer)).map
          (fun t => send_push_notification cfg t.token "Assay Ready"
            (markReadyMessage a.itemcode) t.deviceToken (some t.deviceType) (some a.id)),
        ready := true,
        notificationsSent :=
          (db.pushTokens.filter (fun t => some t.userId == a.customer)).length } := by
  simp [mark_assay_ready, hfind, hready]

/-- Branch characterization of `mark_assay_ready` when the stored flag is
true: the flag flips to false, every notification row of the (customer,
assay) pair is deleted before an "Assay Not Ready" row is appended, and one
visible not-ready push per registration is sent. -/
theorem mark_assay_ready_to_not_ready (cfg : Config) (now : Int) (db : DB)
    (i : Int) (a : AssayRec)
    (hfind : db.assays.find? (markPred i) = some a)
    (hready : a.ready = true) :
    mark_assay_ready cfg now db i = some
      { db := { db with
          assays := updateFirst (markPred i)
            (fun x => { x with ready := !x.ready, modified := some now }) db.assays,
          notifications :=
            (db.notifications.filter
              (fun n => !(n.assayId == a.id && n.userId == a.customer))) ++
            [{ userId := a.customer, assayId := a.id, title := "Assay Not Ready",
               message := "Your assay " ++ optShow a.itemcode ++ " is no longer ready",
               read := false, created := now }] },
        dispatches := (db.pushTokens.filter (fun t => some t.userId == a.customer)).map
          (fun t => send_not_ready_notification cfg t.token a.id a.itemcode
            t.deviceToken (some t.deviceType)),
        ready := false,
        notificationsSent := 0 } := by
  simp [mark_assay_ready, hfind, hready]

/-- C3 (amended): when an assay's ready flag is reverted true→false through
the direct API, every notification row of the (customer, assay) pair is
deleted, an "Assay Not Ready" row is created, and for every registration of
the customer one push is sent — but that push is a *visible* "Assay Not
Ready" alert on every channel (native iOS included) carrying *no* collapse
key: no silent retraction using the ready-case collapse key formula is sent
on any path. -/
theorem mark_revert_no_retraction (cfg : Config) (now : Int) (db : DB) (i : Int)
    (a : AssayRec) (m : MarkOut)
    (hfind : db.assays.find? (markPred i) = some a)
    (hready : a.ready = true)
    (hm : mark_assay_ready cfg now db i = some m) :
    m.ready = false ∧
    m.dispatches = (db.pushTokens.filter (fun t => some t.userId == a.customer)).map
      (fun t => send_not_ready_notification cfg t.token a.id a.itemcode
        t.deviceToken (some t.deviceType)) ∧
    (∀ d ∈ m.dispatches, d.visible = true ∧ d.collapseId = none ∧
      d.title = "Assay Not Ready") ∧
    m.db.notifications =
      (db.notifications.filter
        (fun n => !(n.assayId == a.id && n.userId == a.customer))) ++
      [{ userId := a.customer, assayId := a.id, title := "Assay Not Ready",
         message := "Your assay " ++ optShow a.itemcode ++ " is no longer ready",
         read := false, created := now }] := by
  rw [mark_assay_ready_to_not_ready cfg now db i a hfind hready] at hm
  injection hm with hm
  subst hm
  refine ⟨rfl, rfl, ?_, rfl⟩
  intro d hd
  rcases List.mem_map.mp hd with ⟨t, _, rfl⟩
  exact send_not_ready_notification_shape cfg t.token a.id a.itemcode
    t.deviceToken (some t.deviceType)

/-- C3 counterexample: reverting the ready assay of an iOS-registered
customer sends one *visible* APNs alert with no collapse id; the ready-case
collapse key formula for this assay is "assay-ready-1", but it is attached to
no dispatch and no silent retraction is issued. -/
theorem mark_revert_retraction_counterexample :
    mark_assay_ready cfgIos 20 fxDbReady 1 = some fxRevertOut ∧
    fxRevertOut.dispatches = [fxNotReadyDispatch] ∧
    fxNotReadyDispatch.visible = true ∧
    fxNotReadyDispatch.collapseId = none ∧
    collapseKey (some fxAssayReady.id) = some "assay-ready-1" := by
  exact ⟨by decide, by decide, rfl, rfl, by decide⟩

/-- C3 witness: the amended revert behavior at the concrete store. -/
theorem mark_revert_no_retraction_witness :
    fxRevertOut.ready = false ∧
    fxRevertOut.dispatches =
      (fxDbReady.pushTokens.filter
        (fun t => some t.userId == fxAssayReady.customer)).map
        (fun t => send_not_ready_notification cfgIos t.token fxAssayReady.id
          fxAssayReady.itemcode t.deviceToken (some t.deviceType)) ∧
    fxRevertOut.db.notifications =
      (fxDbReady.notifications.filter
        (fun n => !(n.assayId == fxAssayReady.id && n.userId == fxAssayReady.customer)))
        ++
      [{ userId := fxAssayReady.customer, assayId := fxAssayReady.id,
         title := "Assay Not Ready",
         message := "Your assay " ++ optShow fxAssayReady.itemcode ++ " is no longer ready",
         read := false, created := 20 }] := by
  have h := mark_revert_no_retraction cfgIos 20 fxDbReady 1 fxAssayReady fxRevertOut
    (by rfl) (by rfl) (by rfl)
  exact ⟨h.1, h.2.1, h.2.2.2⟩

/-- C4 counterexample: toggling `fxAssay` ready→not-ready→ready through the
direct API leaves one notification row after the first and second toggles,
but *two* after the third: the third toggle appends a fresh "Assay Ready" row
without deleting the "Assay Not Ready" row left by the revert. -/
theorem ready_toggle_duplicate_counterexample :
    mark_assay_ready cfgIos 10 fxDb 1 = some fxT1 ∧
    mark_assay_ready cfgIos 20 fxT1.db 1 = some fxT2 ∧
    mark_assay_ready cfgIos 30 fxT2.db 1 = some fxT3 ∧
    notifCountFor fxT1.db (some 7) 1 = 1 ∧
    notifCountFor fxT2.db (some 7) 1 = 1 ∧
    notifCountFor fxT3.db (some 7) 1 = 2 := by
  exact ⟨by decide, by decide, by decide, by decide, by decide, by decide⟩

/-- C4 (amended): under the direct mark-ready API, starting from a not-ready
assay with no notification rows for its (customer, assay) pair, the first
toggle leaves exactly one active notification row and the revert leaves
exactly one (the old rows are deleted before the new row is created); but the
third toggle (back to ready) appends without deleting, leaving two rows for
the pair. -/
theorem ready_toggle_notification_lifecycle (cfg : Config) (t1 t2 t3 : Int)
    (db : DB) (i : Int) (a : AssayRec) (o1 o2 o3 : MarkOut)
    (hfind : db.assays.find? (markPred i) = some a)
    (hready : a.ready = false)
    (hcount : notifCountFor db a.customer a.id = 0)
    (hm1 : mark_assay_ready cfg t1 db i = some o1)
    (hm2 : mark_assay_ready cfg t2 o1.db i = some o2)
    (hm3 : mark_assay_ready cfg t3 o2.db i = some o3) :
    notifCountFor o1.db a.customer a.id = 1 ∧
    notifCountFor o2.db a.customer a.id = 1 ∧
    notifCountFor o3.db a.customer a.id = 2 := by
  have hpf1 : ∀ x : AssayRec,
      markPred i ({ x with ready := !x.ready, modified := some t1 }) = markPred i x :=
    fun x => rfl
  have hpf2 : ∀ x : AssayRec,
      markPred i ({ x with ready := !x.ready, modified := some t2 }) = markPred i x :=
    fun x => rfl
  -- first toggle: not ready -> ready
  rw [mark_assay_ready_to_ready cfg t1 db i a hfind hready] at hm1
  injection hm1 with hm1
  subst hm1
  -- locate the toggled record for the second call
  have hf1 : (updateFirst (markPred i)
      (fun x => { x with ready := !x.ready, modified := some t1 })
      db.assays).find? (markPred i) =
      some { a with ready := !a.ready, modified := some t1 } := by
    rw [find?_updateFirst_same (markPred i) _ hpf1 db.assays, hfind]
    rfl
  have hr1 : ({ a with ready := !a.ready, modified := some t1 } : AssayRec).ready = true := by
    simp [hready]
  -- second toggle: ready -> not ready
  rw [mark_assay_ready_to_not_ready cfg t2 _ i _ hf1 hr1] at hm2
  injection hm2 with hm2
  subst hm2
  -- locate the twice-toggled record for the third call
  have hf2 : (updateFirst (markPred i)
      (fun x => { x with ready := !x.ready, modified := some t2 })
      (updateFirst (markPred i)
        (fun x => { x with ready := !x.ready, modified := some t1 })
        db.assays)).find? (markPred i) =
      some { a with ready := !(!a.ready), modified := some t2 } := by
    rw [find?_updateFirst_same (markPred i) _ hpf2 _, hf1]
    rfl
  have hr2 : ({ a with ready := !(!a.ready), modified := some t2 } : AssayRec).ready = false := by
    simp [hready]
  -- third toggle: not ready -> ready again
  rw [mark_assay_ready_to_ready cfg t3 _ i _ hf2 hr2] at hm3
  injection hm3 with hm3
  subst hm3
  unfold notifCountFor at hcount ⊢
  refine ⟨?_, ?_, ?_⟩
  · simp [List.filter_append, hcount]
  · simp [List.filter_append, filter_not_filter]
  · simp [List.filter_append, filter_not_filter]

/-- C4 witness: the three-toggle run on the concrete store, counted through
the amended theorem. -/
theorem ready_toggle_notification_lifecycle_witness :
    notifCountFor fxT1.db fxAssay.customer fxAssay.id = 1 ∧
    notifCountFor fxT2.db fxAssay.customer fxAssay.id = 1 ∧
    notifCountFor fxT3.db fxAssay.customer fxAssay.id = 2 :=
  ready_toggle_notification_lifecycle cfgIos 10 20 30 fxDb 1 fxAssay fxT1 fxT2 fxT3
    (by rfl) (by rfl) (by rfl) (by rfl) (by rfl) (by rfl)

/-! ## Further general lemmas about the list and id primitives -/

theorem take_length_append (l₁ l₂ : List α) : (l₁ ++ l₂).take l₁.length = l₁ := by
  induction l₁ with
  | nil => rfl
  | cons x xs ih =>
    simp only [List.cons_append, List.length_cons, List.take_succ_cons, ih]

theorem syncUserRecord_sess (st : SyncOut) (w : UserWire) :
    (syncUserRecord st w).sess = sessStepU st.sess w := by
  unfold syncUserRecord sessStepU
  cases syncUserCore st.sess w <;> rfl

theorem syncAssayRecord_sess (cfg : Config) (now : Int) (st : SyncOut) (w : AssayWire) :
    (syncAssayRecord cfg now st w).sess = sessStepA cfg now st.sess w := by
  unfold syncAssayRecord sessStepA
  cases syncAssayCore cfg now st.sess w <;> rfl

theorem syncSpoilRecord_sess (st : SyncOut) (w : SpoilWire) :
    (syncSpoilRecord st w).sess = sessStepS st.sess w := by
  unfold syncSpoilRecord sessStepS
  cases syncSpoilCore st.sess w <;> rfl

theorem syncLossRecord_sess (st : SyncOut) (w : LossWire) :
    (syncLossRecord st w).sess = sessStepL st.sess w := by
  unfold syncLossRecord sessStepL
  cases syncLossCore st.sess w <;> rfl

theorem syncUserRecord_errors (st : SyncOut) (w : UserWire) :
    (syncUserRecord st w).errors = st.errors ++ (userSyncError w).toList := by
  unfold syncUserRecord syncUserCore userSyncError
  cases hp : parseModified w.modified with
  | error e => simp
  | ok lm =>
    cases hf : findUser st.sess.db.users w.id with
    | some ex =>
      by_cases hs : shouldApply lm ex.modified = true
      · simp [hs]
      · simp only [Bool.not_eq_true] at hs
        simp [hs]
    | none => simp

theorem syncAssayRecord_errors (cfg : Config) (now : Int) (st : SyncOut)
    (w : AssayWire) :
    (syncAssayRecord cfg now st w).errors = st.errors ++ (assaySyncError w).toList := by
  unfold syncAssayRecord syncAssayCore assaySyncError
  cases hp : parseModified w.modified with
  | error e => simp
  | ok lm =>
    cases hf : findAssay st.sess.db.assays w.id with
    | some ex =>
      by_cases hs : shouldApply lm ex.modified = true
      · by_cases hn : (w.ready.getD false && !ex.ready) = true
        · simp [hs, hn]
        · simp only [Bool.not_eq_true] at hn
          simp [hs, hn]
      · simp only [Bool.not_eq_true] at hs
        simp [hs]
    | none =>
      by_cases hn : w.ready.getD false = true
      · simp [hn]
      · simp only [Bool.not_eq_true] at hn
        simp [hn]

theorem syncSpoilRecord_errors (st : SyncOut) (w : SpoilWire) :
    (syncSpoilRecord st w).errors = st.errors ++ (spoilSyncError w).toList := by
  unfold syncSpoilRecord syncSpoilCore spoilSyncError
  cases hp : parseModified w.modified with
  | error e => simp
  | ok lm =>
    cases hf : findSpoil st.sess.db.spoils w.id with
    | some ex =>
      by_cases hs : shouldApply lm ex.modified = true
      · simp [hs]
      · simp only [Bool.not_eq_true] at hs
        simp [hs]
    | none => simp

theorem syncLossRecord_errors (st : SyncOut) (w : LossWire) :
    (syncLossRecord st w).errors = st.errors ++ (lossSyncError w).toList := by
  unfold syncLossRecord syncLossCore lossSyncError
  cases hp : parseModified w.modified with
  | error e => simp
  | ok lm =>
    cases hf : findLoss st.sess.db.losses w.id with
    | some ex =>
      by_cases hs : shouldApply lm ex.modified = true
      · simp [hs]
      · simp only [Bool.not_eq_true] at hs
        simp [hs]
    | none => simp

theorem foldU_sess : ∀ (l : List UserWire) (st : SyncOut),
    (l.foldl syncUserRecord st).sess = sessAfterU st.sess l := by
  intro l
  induction l with
  | nil => intro st; rfl
  | cons w ws ih =>
    intro st
    show ((ws.foldl syncUserRecord (syncUserRecord st w))).sess = sessAfterU st.sess (w :: ws)
    rw [ih, syncUserRecord_sess]
    rfl

theorem foldA_sess (cfg : Config) (now : Int) : ∀ (l : List AssayWire) (st : SyncOut),
    (l.foldl (syncAssayRecord cfg now) st).sess = sessAfterA cfg now st.sess l := by
  intro l
  induction l with
  | nil => intro st; rfl
  | cons w ws ih =>
    intro st
    show ((ws.foldl (syncAssayRecord cfg now) (syncAssayRecord cfg now st w))).sess =
      sessAfterA cfg now st.sess (w :: ws)
    rw [ih, syncAssayRecord_sess]
    rfl

theorem foldS_sess : ∀ (l : List SpoilWire) (st : SyncOut),
    (l.foldl syncSpoilRecord st).sess = sessAfterS st.sess l := by
  intro l
  induction l with
  | nil => intro st; rfl
  | cons w ws ih =>
    intro st
    show ((ws.foldl syncSpoilRecord (syncSpoilRecord st w))).sess = sessAfterS st.sess (w :: ws)
    rw [ih, syncSpoilRecord_sess]
    rfl

theorem foldL_sess : ∀ (l : List LossWire) (st : SyncOut),
    (l.foldl syncLossRecord st).sess = sessAfterL st.sess l := by
  intro l
  induction l with
  | nil => intro st; rfl
  | cons w ws ih =>
    intro st
    show ((ws.foldl syncLossRecord (syncLossRecord st w))).sess = sessAfterL st.sess (w :: ws)
    rw [ih, syncLossRecord_sess]
    rfl

theorem foldU_errors : ∀ (l : List UserWire) (st : SyncOut),
    (l.foldl syncUserRecord st).errors = st.errors ++ l.filterMap userSyncError := by
  intro l
  induction l with
  | nil => intro st; simp
  | cons w ws ih =>
    intro st
    show ((ws.foldl syncUserRecord (syncUserRecord st w))).errors = _
    rw [ih, syncUserRecord_errors]
    cases h : userSyncError w <;> simp [List.filterMap_cons, h]

theorem foldA_errors (cfg : Config) (now : Int) :
    ∀ (l : List AssayWire) (st : SyncOut),
    (l.foldl (syncAssayRecord cfg now) st).errors =
      st.errors ++ l.filterMap assaySyncError := by
  intro l
  induction l with
  | nil => intro st; simp
  | cons w ws ih =>
    intro st
    show ((ws.foldl (syncAssayRecord cfg now) (syncAssayRecord cfg now st w))).errors = _
    rw [ih, syncAssayRecord_errors]
    cases h : assaySyncError w <;> simp [List.filterMap_cons, h]

theorem foldS_errors : ∀ (l : List SpoilWire) (st : SyncOut),
    (l.foldl syncSpoilRecord st).errors = st.errors ++ l.filterMap spoilSyncError := by
  intro l
  induction l with
  | nil => intro st; simp
  | cons w ws ih =>
    intro st
    show ((ws.foldl syncSpoilRecord (syncSpoilRecord st w))).errors = _
    rw [ih, syncSpoilRecord_errors]
    cases h : spoilSyncError w <;> simp [List.filterMap_cons, h]

theorem foldL_errors : ∀ (l : List LossWire) (st : SyncOut),
    (l.foldl syncLossRecord st).errors = st.errors ++ l.filterMap lossSyncError := by
  intro l
  induction l with
  | nil => intro st; simp
  | cons w ws ih =>
    intro st
    show ((ws.foldl syncLossRecord (syncLossRecord st w))).errors = _
    rw [ih, syncLossRecord_errors]
    cases h : lossSyncError w <;> simp [List.filterMap_cons, h]

/-- The session after the four folds of one `push_data` pass, as the
composition of the per-type fold views in their fixed order. -/
theorem push_data_folds_sess (cfg : Config) (now : Int) (db : DB) (b : PushBatch) :
    (push_data_folds cfg now db b).sess =
      sessAfterL (sessAfterS (sessAfterA cfg now (sessAfterU { db := db } b.users)
        b.assay_results) b.spoil_records) b.losses := by
  show (b.losses.foldl syncLossRecord (b.spoil_records.foldl syncSpoilRecord
    (b.assay_results.foldl (syncAssayRecord cfg now)
      (b.users.foldl syncUserRecord { sess := { db := db } })))).sess = _
  rw [foldL_sess, foldS_sess, foldA_sess, foldU_sess]

/-- The error list of the four folds depends only on the batch: one entry per
failing record, naming its entity type and identifier, in processing order. -/
theorem push_data_folds_errors (cfg : Config) (now : Int) (db : DB) (b : PushBatch) :
    (push_data_folds cfg now db b).errors = expectedErrors b := by
  show (b.losses.foldl syncLossRecord (b.spoil_records.foldl syncSpoilRecord
    (b.assay_results.foldl (syncAssayRecord cfg now)
      (b.users.foldl syncUserRecord { sess := { db := db } })))).errors = _
  rw [foldL_errors, foldS_errors, foldA_errors, foldU_errors]
  simp [expectedErrors, List.append_assoc]

theorem commitSess_ok (s : Sess) (hc : commitOk ((flushSess s).db) = true) :
    commitSess s = Except.ok ((flushSess s).db) := by
  show (if commitOk ((flushSess s).db) then Except.ok ((flushSess s).db)
    else Except.error "IntegrityError: duplicate key value") = _
  rw [hc]
  rfl

theorem commitSess_err (s : Sess) (hc : commitOk ((flushSess s).db) = false) :
    commitSess s = Except.error "IntegrityError: duplicate key value" := by
  show (if commitOk ((flushSess s).db) then Except.ok ((flushSess s).db)
    else Except.error "IntegrityError: duplicate key value") = _
  rw [hc]
  rfl

/-- Inversion of a successful `push_data` request: the commit's constraint
check passed, and the response is the fold state with the flushed store. -/
theorem push_data_ok_elim (cfg : Config) (now : Int) (db : DB) (b : PushBatch)
    (o : SyncOut) (h : push_data cfg now db b = Except.ok o) :
    commitOk ((flushSess (push_data_folds cfg now db b).sess).db) = true ∧
    o = { push_data_folds cfg now db b with
          sess := { db := (flushSess (push_data_folds cfg now db b).sess).db } } := by
  cases hc : commitOk ((flushSess (push_data_folds cfg now db b).sess).db) with
  | false =>
    have h' : push_data cfg now db b =
        Except.error "IntegrityError: duplicate key value" := by
      show (match commitSess (push_data_folds cfg now db b).sess with
        | Except.ok d => Except.ok { push_data_folds cfg now db b with sess := { db := d } }
        | Except.error e => (Except.error e : Except String SyncOut)) = _
      rw [commitSess_err _ hc]
    rw [h'] at h
    cases h
  | true =>
    have h' : push_data cfg now db b =
        Except.ok { push_data_folds cfg now db b with
          sess := { db := (flushSess (push_data_folds cfg now db b).sess).db } } := by
      show (match commitSess (push_data_folds cfg now db b).sess with
        | Except.ok d => Except.ok { push_data_folds cfg now db b with sess := { db := d } }
        | Except.error e => (Except.error e : Except String SyncOut)) = _
      rw [commitSess_ok _ hc]
    rw [h'] at h
    exact ⟨rfl, (Except.ok.inj h).symm⟩

/-- A `push_data` request whose flushed store satisfies the primary-key
constraints commits successfully. -/
theorem push_data_ok_intro (cfg : Config) (now : Int) (db : DB) (b : PushBatch)
    (hc : commitOk ((flushSess (push_data_folds cfg now db b).sess).db) = true) :
    push_data cfg now db b =
      Except.ok { push_data_folds cfg now db b with
        sess := { db := (flushSess (push_data_folds cfg now db b).sess).db } } := by
  show (match commitSess (push_data_folds cfg now db b).sess with
    | Except.ok d => Except.ok { push_data_folds cfg now db b with sess := { db := d } }
    | Except.error e => (Except.error e : Except String SyncOut)) = _
  rw [commitSess_ok _ hc]

theorem sessStepU_frame (s : Sess) (w : UserWire) :
    mAssays (sessStepU s w) = mAssays s ∧ mSpoils (sessStepU s w) = mSpoils s ∧
    mLosses (sessStepU s w) = mLosses s := by
  unfold sessStepU syncUserCore
  cases hp : parseModified w.modified with
  | error e => exact ⟨rfl, rfl, rfl⟩
  | ok lm =>
    cases hf : findUser s.db.users w.id with
    | some ex =>
      by_cases hs : shouldApply lm ex.modified = true
      · simp [hs, mAssays, mSpoils, mLosses]
      · simp only [Bool.not_eq_true] at hs
        simp [hs]
    | none => simp [mAssays, mSpoils, mLosses]

theorem sessStepA_frame (cfg : Config) (now : Int) (s : Sess) (w : AssayWire) :
    mUsers (sessStepA cfg now s w) = mUsers s ∧
    mSpoils (sessStepA cfg now s w) = mSpoils s ∧
    mLosses (sessStepA cfg now s w) = mLosses s := by
  unfold sessStepA syncAssayCore
  cases hp : parseModified w.modified with
  | error e => exact ⟨rfl, rfl, rfl⟩
  | ok lm =>
    cases hf : findAssay s.db.assays w.id with
    | some ex =>
      by_cases hs : shouldApply lm ex.modified = true
      · by_cases hn : (w.ready.getD false && !ex.ready) = true
        · simp [hs, hn, mUsers, mSpoils, mLosses]
        · simp only [Bool.not_eq_true] at hn
          simp [hs, hn, mUsers, mSpoils, mLosses]
      · simp only [Bool.not_eq_true] at hs
        simp [hs]
    | none =>
      by_cases hn : w.ready.getD false = true
      · simp [hn, mUsers, mSpoils, mLosses, flushSess]
      · simp only [Bool.not_eq_true] at hn
        simp [hn, mUsers, mSpoils, mLosses]

theorem sessStepS_frame (s : Sess) (w : SpoilWire) :
    mUsers (sessStepS s w) = mUsers s ∧ mAssays (sessStepS s w) = mAssays s ∧
    mLosses (sessStepS s w) = mLosses s := by
  unfold sessStepS syncSpoilCore
  cases hp : parseModified w.modified with
  | error e => exact ⟨rfl, rfl, rfl⟩
  | ok lm =>
    cases hf : findSpoil s.db.spoils w.id with
    | some ex =>
      by_cases hs : shouldApply lm ex.modified = true
      · simp [hs, mUsers, mAssays, mLosses]
      · simp only [Bool.not_eq_true] at hs
        simp [hs]
    | none => simp [mUsers, mAssays, mLosses]

theorem sessStepL_frame (s : Sess) (w : LossWire) :
    mUsers (sessStepL s w) = mUsers s ∧ mAssays (sessStepL s w) = mAssays s ∧
    mSpoils (sessStepL s w) = mSpoils s := by
  unfold sessStepL syncLossCore
  cases hp : parseModified w.modified with
  | error e => exact ⟨rfl, rfl, rfl⟩
  | ok lm =>
    cases hf : findLoss s.db.losses w.id with
    | some ex =>
      by_cases hs : shouldApply lm ex.modified = true
      · simp [hs, mUsers, mAssays, mSpoils]
      · simp only [Bool.not_eq_true] at hs
        simp [hs]
    | none => simp [mUsers, mAssays, mSpoils]

theorem sessAfterU_frame : ∀ (l : List UserWire) (s : Sess),
    mAssays (sessAfterU s l) = mAssays s ∧ mSpoils (sessAfterU s l) = mSpoils s ∧
    mLosses (sessAfterU s l) = mLosses s := by
  intro l
  induction l with
  | nil => intro s; exact ⟨rfl, rfl, rfl⟩
  | cons w ws ih =>
    intro s
    have hs := sessStepU_frame s w
    have hi := ih (sessStepU s w)
    exact ⟨hi.1.trans hs.1, hi.2.1.trans hs.2.1, hi.2.2.trans hs.2.2⟩

theorem sessAfterA_frame (cfg : Config) (now : Int) : ∀ (l : List AssayWire) (s : Sess),
    mUsers (sessAfterA cfg now s l) = mUsers s ∧
    mSpoils (sessAfterA cfg now s l) = mSpoils s ∧
    mLosses (sessAfterA cfg now s l) = mLosses s := by
  intro l
  induction l with
  | nil => intro s; exact ⟨rfl, rfl, rfl⟩
  | cons w ws ih =>
    intro s
    have hs := sessStepA_frame cfg now s w
    have hi := ih (sessStepA cfg now s w)
    exact ⟨hi.1.trans hs.1, hi.2.1.trans hs.2.1, hi.2.2.trans hs.2.2⟩

theorem sessAfterS_frame : ∀ (l : List SpoilWire) (s : Sess),
    mUsers (sessAfterS s l) = mUsers s ∧ mAssays (sessAfterS s l) = mAssays s ∧
    mLosses (sessAfterS s l) = mLosses s := by
  intro l
  induction l with
  | nil => intro s; exact ⟨rfl, rfl, rfl⟩
  | cons w ws ih =>
    intro s
    have hs := sessStepS_frame s w
    have hi := ih (sessStepS s w)
    exact ⟨hi.1.trans hs.1, hi.2.1.trans hs.2.1, hi.2.2.trans hs.2.2⟩

theorem sessAfterL_frame : ∀ (l : List LossWire) (s : Sess),
    mUsers (sessAfterL s l) = mUsers s ∧ mAssays (sessAfterL s l) = mAssays s ∧
    mSpoils (sessAfterL s l) = mSpoils s := by
  intro l
  induction l with
  | nil => intro s; exact ⟨rfl, rfl, rfl⟩
  | cons w ws ih =>
    intro s
    have hs := sessStepL_frame s w
    have hi := ih (sessStepL s w)
    exact ⟨hi.1.trans hs.1, hi.2.1.trans hs.2.1, hi.2.2.trans hs.2.2⟩

/-! ## Failing records leave the session untouched -/

theorem sessStepU_bad (s : Sess) (w : UserWire) (h : parseOk w.modified = false) :
    sessStepU s w = s := by
  unfold parseOk at h
  unfold sessStepU syncUserCore
  cases hp : parseModified w.modified with
  | error e => rfl
  | ok lm => rw [hp] at h; simp at h

theorem sessStepA_bad (cfg : Config) (now : Int) (s : Sess) (w : AssayWire)
    (h : parseOk w.modified = false) : sessStepA cfg now s w = s := by
  unfold parseOk at h
  unfold sessStepA syncAssayCore
  cases hp : parseModified w.modified with
  | error e => rfl
  | ok lm => rw [hp] at h; simp at h

theorem sessStepS_bad (s : Sess) (w : SpoilWire) (h : parseOk w.modified = false) :
    sessStepS s w = s := by
  unfold parseOk at h
  unfold sessStepS syncSpoilCore
  cases hp : parseModified w.modified with
  | error e => rfl
  | ok lm => rw [hp] at h; simp at h

theorem sessStepL_bad (s : Sess) (w : LossWire) (h : parseOk w.modified = false) :
    sessStepL s w = s := by
  unfold parseOk at h
  unfold sessStepL syncLossCore
  cases hp : parseModified w.modified with
  | error e => rfl
  | ok lm => rw [hp] at h; simp at h

theorem sessAfterU_filter : ∀ (l : List UserWire) (s : Sess),
    sessAfterU s (l.filter (fun w => parseOk w.modified)) = sessAfterU s l := by
  intro l
  induction l with
  | nil => intro s; rfl
  | cons w ws ih =>
    intro s
    by_cases h : parseOk w.modified = true
    · simp only [List.filter_cons, h, if_true]
      exact ih (sessStepU s w)
    · simp only [Bool.not_eq_true] at h
      simp only [List.filter_cons, h, Bool.false_eq_true, if_false]
      rw [ih s]
      show sessAfterU s ws = sessAfterU (sessStepU s w) ws
      rw [sessStepU_bad s w h]

theorem sessAfterA_filter (cfg : Config) (now : Int) : ∀ (l : List AssayWire) (s : Sess),
    sessAfterA cfg now s (l.filter (fun w => parseOk w.modified)) =
      sessAfterA cfg now s l := by
  intro l
  induction l with
  | nil => intro s; rfl
  | cons w ws ih =>
    intro s
    by_cases h : parseOk w.modified = true
    · simp only [List.filter_cons, h, if_true]
      exact ih (sessStepA cfg now s w)
    · simp only [Bool.not_eq_true] at h
      simp only [List.filter_cons, h, Bool.false_eq_true, if_false]
      rw [ih s]
      show sessAfterA cfg now s ws = sessAfterA cfg now (sessStepA cfg now s w) ws
      rw [sessStepA_bad cfg now s w h]

theorem sessAfterS_filter : ∀ (l : List SpoilWire) (s : Sess),
    sessAfterS s (l.filter (fun w => parseOk w.modified)) = sessAfterS s l := by
  intro l
  induction l with
  | nil => intro s; rfl
  | cons w ws ih =>
    intro s
    by_cases h : parseOk w.modified = true
    · simp only [List.filter_cons, h, if_true]
      exact ih (sessStepS s w)
    · simp only [Bool.not_eq_true] at h
      simp only [List.filter_cons, h, Bool.false_eq_true, if_false]
      rw [ih s]
      show sessAfterS s ws = sessAfterS (sessStepS s w) ws
      rw [sessStepS_bad s w h]

theorem sessAfterL_filter : ∀ (l : List LossWire) (s : Sess),
    sessAfterL s (l.filter (fun w => parseOk w.modified)) = sessAfterL s l := by
  intro l
  induction l with
  | nil => intro s; rfl
  | cons w ws ih =>
    intro s
    by_cases h : parseOk w.modified = true
    · simp only [List.filter_cons, h, if_true]
      exact ih (sessStepL s w)
    · simp only [Bool.not_eq_true] at h
      simp only [List.filter_cons, h, Bool.false_eq_true, if_false]
      rw [ih s]
      show sessAfterL s ws = sessAfterL (sessStepL s w) ws
      rw [sessStepL_bad s w h]

/-! ## A batch of parse-surviving records produces no error entry -/

theorem userSyncError_of_parseOk (w : UserWire) (h : parseOk w.modified = true) :
    userSyncError w = none := by
  unfold parseOk at h
  unfold userSyncError
  cases hp : parseModified w.modified with
  | ok lm => rfl
  | error e => rw [hp] at h; simp at h

theorem assaySyncError_of_parseOk (w : AssayWire) (h : parseOk w.modified = true) :
    assaySyncError w = none := by
  unfold parseOk at h
  unfold assaySyncError
  cases hp : parseModified w.modified with
  | ok lm => rfl
  | error e => rw [hp] at h; simp at h

theorem spoilSyncError_of_parseOk (w : SpoilWire) (h : parseOk w.modified = true) :
    spoilSyncError w = none := by
  unfold parseOk at h
  unfold spoilSyncError
  cases hp : parseModified w.modified with
  | ok lm => rfl
  | error e => rw [hp] at h; simp at h

theorem lossSyncError_of_parseOk (w : LossWire) (h : parseOk w.modified = true) :
    lossSyncError w = none := by
  unfold parseOk at h
  unfold lossSyncError
  cases hp : parseModified w.modified with
  | ok lm => rfl
  | error e => rw [hp] at h; simp at h

theorem filterMap_userSyncError_good (l : List UserWire) :
    (l.filter (fun w => parseOk w.modified)).filterMap userSyncError = [] := by
  induction l with
  | nil => rfl
  | cons w ws ih =>
    by_cases h : parseOk w.modified = true
    · simp only [List.filter_cons, h, if_true, List.filterMap_cons,
        userSyncError_of_parseOk w h, ih]
    · simp only [Bool.not_eq_true] at h
      simp only [List.filter_cons, h, Bool.false_eq_true, if_false, ih]

theorem filterMap_assaySyncError_good (l : List AssayWire) :
    (l.filter (fun w => parseOk w.modified)).filterMap assaySyncError = [] := by
  induction l with
  | nil => rfl
  | cons w ws ih =>
    by_cases h : parseOk w.modified = true
    · simp only [List.filter_cons, h, if_true, List.filterMap_cons,
        assaySyncError_of_parseOk w h, ih]
    · simp only [Bool.not_eq_true] at h
      simp only [List.filter_cons, h, Bool.false_eq_true, if_false, ih]

theorem filterMap_spoilSyncError_good (l : List SpoilWire) :
    (l.filter (fun w => parseOk w.modified)).filterMap spoilSyncError = [] := by
  induction l with
  | nil => rfl
  | cons w ws ih =>
    by_cases h : parseOk w.modified = true
    · simp only [List.filter_cons, h, if_true, List.filterMap_cons,
        spoilSyncError_of_parseOk w h, ih]
    · simp only [Bool.not_eq_true] at h
      simp only [List.filter_cons, h, Bool.false_eq_true, if_false, ih]

theorem filterMap_lossSyncError_good (l : List LossWire) :
    (l.filter (fun w => parseOk w.modified)).filterMap lossSyncError = [] := by
  induction l with
  | nil => rfl
  | cons w ws ih =>
    by_cases h : parseOk w.modified = true
    · simp only [List.filter_cons, h, if_true, List.filterMap_cons,
        lossSyncError_of_parseOk w h, ih]
    · simp only [Bool.not_eq_true] at h
      simp only [List.filter_cons, h, Bool.false_eq_true, if_false, ih]

/-! ## Identifier sequences at the commit-level view -/

theorem sessStepU_ids (s : Sess) (w : UserWire) :
    (mUsers (sessStepU s w)).map (fun u => u.id) = (mUsers s).map (fun u => u.id) ∨
    (mUsers (sessStepU s w)).map (fun u => u.id) =
      (mUsers s).map (fun u => u.id) ++ [w.id] := by
  unfold sessStepU syncUserCore
  cases hp : parseModified w.modified with
  | error e => exact Or.inl rfl
  | ok lm =>
    cases hf : findUser s.db.users w.id with
    | some ex =>
      by_cases hs : shouldApply lm ex.modified = true
      · left
        simp only [hs, if_true, mUsers, List.map_append]
        rw [map_updateFirst (fun u => u.id == w.id)
          (fun u => applyUserFields u w lm) (fun u => u.id) (fun x => rfl) s.db.users]
      · left
        simp only [Bool.not_eq_true] at hs
        simp [hs]
    | none =>
      right
      simp [mUsers, newUserFromWire]

theorem sessStepA_ids (cfg : Config) (now : Int) (s : Sess) (w : AssayWire) :
    (mAssays (sessStepA cfg now s w)).map (fun a => a.id) =
      (mAssays s).map (fun a => a.id) ∨
    (mAssays (sessStepA cfg now s w)).map (fun a => a.id) =
      (mAssays s).map (fun a => a.id) ++ [w.id] := by
  unfold sessStepA syncAssayCore
  cases hp : parseModified w.modified with
  | error e => exact Or.inl rfl
  | ok lm =>
    cases hf : findAssay s.db.assays w.id with
    | some ex =>
      by_cases hs : shouldApply lm ex.modified = true
      · left
        by_cases hn : (w.ready.getD false && !ex.ready) = true
        · simp only [hs, hn, if_true, mAssays, List.map_append]
          rw [map_updateFirst (fun a => a.id == w.id)
            (fun a => applyAssayFields a w lm) (fun a => a.id) (fun x => rfl) s.db.assays]
        · simp only [Bool.not_eq_true] at hn
          simp only [hs, hn, Bool.false_eq_true, if_true, if_false, mAssays,
            List.map_append]
          rw [map_updateFirst (fun a => a.id == w.id)
            (fun a => applyAssayFields a w lm) (fun a => a.id) (fun x => rfl) s.db.assays]
      · left
        simp only [Bool.not_eq_true] at hs
        simp [hs]
    | none =>
      right
      by_cases hn : w.ready.getD false = true
      · simp [hn, mAssays, flushSess, newAssayFromWire]
      · simp only [Bool.not_eq_true] at hn
        simp [hn, mAssays, newAssayFromWire]

theorem sessStepS_ids (s : Sess) (w : SpoilWire) :
    (mSpoils (sessStepS s w)).map (fun x => x.id) = (mSpoils s).map (fun x => x.id) ∨
    (mSpoils (sessStepS s w)).map (fun x => x.id) =
      (mSpoils s).map (fun x => x.id) ++ [w.id] := by
  unfold sessStepS syncSpoilCore
  cases hp : parseModified w.modified with
  | error e => exact Or.inl rfl
  | ok lm =>
    cases hf : findSpoil s.db.spoils w.id with
    | some ex =>
      by_cases hs : shouldApply lm ex.modified = true
      · left
        simp only [hs, if_true, mSpoils, List.map_append]
        rw [map_updateFirst (fun x => x.id == w.id)
          (fun x => applySpoilFields x w lm) (fun x => x.id) (fun x => rfl) s.db.spoils]
      · left
        simp only [Bool.not_eq_true] at hs
        simp [hs]
    | none =>
      right
      simp [mSpoils, newSpoilFromWire]

theorem sessStepL_ids (s : Sess) (w : LossWire) :
    (mLosses (sessStepL s w)).map (fun x => x.id) = (mLosses s).map (fun x => x.id) ∨
    (mLosses (sessStepL s w)).map (fun x => x.id) =
      (mLosses s).map (fun x => x.id) ++ [w.id] := by
  unfold sessStepL syncLossCore
  cases hp : parseModified w.modified with
  | error e => exact Or.inl rfl
  | ok lm =>
    cases hf : findLoss s.db.losses w.id with
    | some ex =>
      by_cases hs : shouldApply lm ex.modified = true
      · left
        simp only [hs, if_true, mLosses, List.map_append]
        rw [map_updateFirst (fun x => x.id == w.id)
          (fun x => applyLossFields x w lm) (fun x => x.id) (fun x => rfl) s.db.losses]
      · left
        simp only [Bool.not_eq_true] at hs
        simp [hs]
    | none =>
      right
      simp [mLosses, newLossFromWire]

theorem sessAfterU_ids : ∀ (l : List UserWire) (s : Sess),
    ∃ t, (mUsers (sessAfterU s l)).map (fun u => u.id) =
      (mUsers s).map (fun u => u.id) ++ t := by
  intro l
  induction l with
  | nil => intro s; exact ⟨[], by simp [sessAfterU, sessAfterA, sessAfterS, sessAfterL]⟩
  | cons w ws ih =>
    intro s
    obtain ⟨t1, ht1⟩ := ih (sessStepU s w)
    cases sessStepU_ids s w with
    | inl h =>
      exact ⟨t1, by
        show (mUsers (sessAfterU (sessStepU s w) ws)).map (fun u => u.id) = _
        rw [ht1, h]⟩
    | inr h =>
      exact ⟨[w.id] ++ t1, by
        show (mUsers (sessAfterU (sessStepU s w) ws)).map (fun u => u.id) = _
        rw [ht1, h, List.append_assoc]⟩

theorem sessAfterA_ids (cfg : Config) (now : Int) : ∀ (l : List AssayWire) (s : Sess),
    ∃ t, (mAssays (sessAfterA cfg now s l)).map (fun a => a.id) =
      (mAssays s).map (fun a => a.id) ++ t := by
  intro l
  induction l with
  | nil => intro s; exact ⟨[], by simp [sessAfterU, sessAfterA, sessAfterS, sessAfterL]⟩
  | cons w ws ih =>
    intro s
    obtain ⟨t1, ht1⟩ := ih (sessStepA cfg now s w)
    cases sessStepA_ids cfg now s w with
    | inl h =>
      exact ⟨t1, by
        show (mAssays (sessAfterA cfg now (sessStepA cfg now s w) ws)).map
          (fun a => a.id) = _
        rw [ht1, h]⟩
    | inr h =>
      exact ⟨[w.id] ++ t1, by
        show (mAssays (sessAfterA cfg now (sessStepA cfg now s w) ws)).map
          (fun a => a.id) = _
        rw [ht1, h, List.append_assoc]⟩

theorem sessAfterS_ids : ∀ (l : List SpoilWire) (s : Sess),
    ∃ t, (mSpoils (sessAfterS s l)).map (fun x => x.id) =
      (mSpoils s).map (fun x => x.id) ++ t := by
  intro l
  induction l with
  | nil => intro s; exact ⟨[], by simp [sessAfterU, sessAfterA, sessAfterS, sessAfterL]⟩
  | cons w ws ih =>
    intro s
    obtain ⟨t1, ht1⟩ := ih (sessStepS s w)
    cases sessStepS_ids s w with
    | inl h =>
      exact ⟨t1, by
        show (mSpoils (sessAfterS (sessStepS s w) ws)).map (fun x => x.id) = _
        rw [ht1, h]⟩
    | inr h =>
      exact ⟨[w.id] ++ t1, by
        show (mSpoils (sessAfterS (sessStepS s w) ws)).map (fun x => x.id) = _
        rw [ht1, h, List.append_assoc]⟩

theorem sessAfterL_ids : ∀ (l : List LossWire) (s : Sess),
    ∃ t, (mLosses (sessAfterL s l)).map (fun x => x.id) =
      (mLosses s).map (fun x => x.id) ++ t := by
  intro l
  induction l with
  | nil => intro s; exact ⟨[], by simp [sessAfterU, sessAfterA, sessAfterS, sessAfterL]⟩
  | cons w ws ih =>
    intro s
    obtain ⟨t1, ht1⟩ := ih (sessStepL s w)
    cases sessStepL_ids s w with
    | inl h =>
      exact ⟨t1, by
        show (mLosses (sessAfterL (sessStepL s w) ws)).map (fun x => x.id) = _
        rw [ht1, h]⟩
    | inr h =>
      exact ⟨[w.id] ++ t1, by
        show (mLosses (sessAfterL (sessStepL s w) ws)).map (fun x => x.id) = _
        rw [ht1, h, List.append_assoc]⟩
/-! ## C6: per-record failure isolation, and the uncaught commit abort -/

/-- C6 (amended): every failure raised inside a per-record `try` block (a
malformed payload) is caught, recorded as one error entry naming the record's
entity type and identifier in processing order, and isolated: on a request
that reaches a successful commit, re-running the request without the failing
records commits the identical store with an empty error list.  But a
constraint violation surfaces only at the single `db.commit()` after the
loops, *outside* every per-record `try`: it aborts the whole request uncaught,
with nothing persisted and no error entry (see the counterexample). -/
theorem sync_partial_failure_isolation (cfg : Config) (now : Int) (db : DB)
    (b : PushBatch) (o : SyncOut) (h : push_data cfg now db b = Except.ok o) :
    o.errors = expectedErrors b ∧
    isOkE (push_data cfg now db (goodBatch b)) = true ∧
    (exceptGetD (push_data cfg now db (goodBatch b)) o).sess.db = o.sess.db ∧
    (exceptGetD (push_data cfg now db (goodBatch b)) o).errors = [] := by
  obtain ⟨hc, ho⟩ := push_data_ok_elim cfg now db b o h
  have hsess : (push_data_folds cfg now db (goodBatch b)).sess =
      (push_data_folds cfg now db b).sess := by
    rw [push_data_folds_sess, push_data_folds_sess]
    show sessAfterL (sessAfterS (sessAfterA cfg now (sessAfterU { db := db }
      (b.users.filter (fun w => parseOk w.modified)))
      (b.assay_results.filter (fun w => parseOk w.modified)))
      (b.spoil_records.filter (fun w => parseOk w.modified)))
      (b.losses.filter (fun w => parseOk w.modified)) = _
    rw [sessAfterU_filter, sessAfterA_filter, sessAfterS_filter, sessAfterL_filter]
  have hcg : commitOk ((flushSess (push_data_folds cfg now db (goodBatch b)).sess).db)
      = true := by
    rw [hsess]
    exact hc
  have h2 := push_data_ok_intro cfg now db (goodBatch b) hcg
  refine ⟨?_, ?_, ?_, ?_⟩
  · rw [ho]
    show (push_data_folds cfg now db b).errors = _
    exact push_data_folds_errors cfg now db b
  · rw [h2]
    rfl
  · rw [h2, ho]
    show (flushSess (push_data_folds cfg now db (goodBatch b)).sess).db =
      (flushSess (push_data_folds cfg now db b).sess).db
    rw [hsess]
  · rw [h2]
    show (push_data_folds cfg now db (goodBatch b)).errors = []
    rw [push_data_folds_errors]
    show (b.users.filter (fun w => parseOk w.modified)).filterMap userSyncError ++
      (b.assay_results.filter (fun w => parseOk w.modified)).filterMap assaySyncError ++
      (b.spoil_records.filter (fun w => parseOk w.modified)).filterMap spoilSyncError ++
      (b.losses.filter (fun w => parseOk w.modified)).filterMap lossSyncError = []
    rw [filterMap_userSyncError_good, filterMap_assaySyncError_good,
      filterMap_spoilSyncError_good, filterMap_lossSyncError_good]
    rfl

/-- C6 counterexample: a batch carrying the same brand-new user id twice.
Under `autoflush=False` the second lookup misses the first, still-pending
insert, so the session accumulates two pending rows with id 50; the
per-record loops record no error for either record, yet the commit raises
`IntegrityError` and the whole request aborts — while each record alone is
accepted.  The abort is not an error-list entry but an uncaught exception. -/
theorem sync_commit_abort_counterexample :
    (sessAfterU { db := fxDb } fxDupBatch.users).pendUsers.map (fun u => u.id) =
      [50, 50] ∧
    (push_data_folds cfgIos 0 fxDb fxDupBatch).errors = [] ∧
    push_data cfgIos 0 fxDb fxDupBatch =
      Except.error "IntegrityError: duplicate key value" ∧
    isOkE (push_data cfgIos 0 fxDb { users := [fxDupWire1] }) = true ∧
    isOkE (push_data cfgIos 0 fxDb { users := [fxDupWire2] }) = true := by
  refine ⟨by decide, by decide, by rfl, by rfl, by rfl⟩

theorem sync_partial_failure_isolation_witness :
    fxTenOut.errors = expectedErrors fxTenBatch ∧
    isOkE (push_data cfgIos 0 fxDb (goodBatch fxTenBatch)) = true ∧
    (exceptGetD (push_data cfgIos 0 fxDb (goodBatch fxTenBatch)) fxTenOut).sess.db =
      fxTenOut.sess.db ∧
    (exceptGetD (push_data cfgIos 0 fxDb (goodBatch fxTenBatch)) fxTenOut).errors = [] :=
  sync_partial_failure_isolation cfgIos 0 fxDb fxTenBatch fxTenOut (by rfl)

/-! ## C10: identifier preservation -/

/-- C10: sync reconciliation never changes an existing record's primary
identifier: the field-copy step skips the `id` key for every entity type, and
on any committing `push_data` request each table of the returned store starts
with the old id sequence unchanged (freshly inserted rows append after it) —
every pre-existing row keeps its id and its position. -/
theorem sync_preserves_ids (cfg : Config) (now : Int) (db : DB) (b : PushBatch) :
    (∀ (ex : UserRec) (w : UserWire) (lm : Option Int),
      (applyUserFields ex w lm).id = ex.id) ∧
    (∀ (ex : AssayRec) (w : AssayWire) (lm : Option Int),
      (applyAssayFields ex w lm).id = ex.id) ∧
    (∀ (ex : SpoilRec) (w : SpoilWire) (lm : Option Int),
      (applySpoilFields ex w lm).id = ex.id) ∧
    (∀ (ex : LossRec) (w : LossWire) (lm : Option Int),
      (applyLossFields ex w lm).id = ex.id) ∧
    ∀ o : SyncOut, push_data cfg now db b = Except.ok o →
      (o.sess.db.users.map (fun u => u.id)).take db.users.length =
        db.users.map (fun u => u.id) ∧
      (o.sess.db.assays.map (fun a => a.id)).take db.assays.length =
        db.assays.map (fun a => a.id) ∧
      (o.sess.db.spoils.map (fun s => s.id)).take db.spoils.length =
        db.spoils.map (fun s => s.id) ∧
      (o.sess.db.losses.map (fun s => s.id)).take db.losses.length =
        db.losses.map (fun s => s.id) := by
  refine ⟨fun _ _ _ => rfl, fun _ _ _ => rfl, fun _ _ _ => rfl, fun _ _ _ => rfl, ?_⟩
  intro o h
  obtain ⟨hc, ho⟩ := push_data_ok_elim cfg now db b o h
  rw [ho]
  have hsf := push_data_folds_sess cfg now db b
  refine ⟨?_, ?_, ?_, ?_⟩
  · show ((mUsers (push_data_folds cfg now db b).sess).map
      (fun u => u.id)).take db.users.length = db.users.map (fun u => u.id)
    rw [hsf]
    rw [(sessAfterL_frame b.losses _).1, (sessAfterS_frame b.spoil_records _).1,
      (sessAfterA_frame cfg now b.assay_results _).1]
    obtain ⟨t, ht⟩ := sessAfterU_ids b.users { db := db }
    rw [ht]
    rw [show (mUsers ({ db := db } : Sess)).map (fun u => u.id) =
      db.users.map (fun u => u.id) from by simp [mUsers]]
    rw [show db.users.length = (db.users.map (fun u => u.id)).length from by simp]
    exact take_length_append _ _
  · show ((mAssays (push_data_folds cfg now db b).sess).map
      (fun a => a.id)).take db.assays.length = db.assays.map (fun a => a.id)
    rw [hsf]
    rw [(sessAfterL_frame b.losses _).2.1, (sessAfterS_frame b.spoil_records _).2.1]
    obtain ⟨t, ht⟩ := sessAfterA_ids cfg now b.assay_results
      (sessAfterU { db := db } b.users)
    rw [ht]
    rw [(sessAfterU_frame b.users { db := db }).1]
    rw [show (mAssays ({ db := db } : Sess)).map (fun a => a.id) =
      db.assays.map (fun a => a.id) from by simp [mAssays]]
    rw [show db.assays.length = (db.assays.map (fun a => a.id)).length from by simp]
    exact take_length_append _ _
  · show ((mSpoils (push_data_folds cfg now db b).sess).map
      (fun x => x.id)).take db.spoils.length = db.spoils.map (fun x => x.id)
    rw [hsf]
    rw [(sessAfterL_frame b.losses _).2.2]
    obtain ⟨t, ht⟩ := sessAfterS_ids b.spoil_records
      (sessAfterA cfg now (sessAfterU { db := db } b.users) b.assay_results)
    rw [ht]
    rw [(sessAfterA_frame cfg now b.assay_results _).2.1,
      (sessAfterU_frame b.users { db := db }).2.1]
    rw [show (mSpoils ({ db := db } : Sess)).map (fun x => x.id) =
      db.spoils.map (fun x => x.id) from by simp [mSpoils]]
    rw [show db.spoils.length = (db.spoils.map (fun x => x.id)).length from by simp]
    exact take_length_append _ _
  · show ((mLosses (push_data_folds cfg now db b).sess).map
      (fun x => x.id)).take db.losses.length = db.losses.map (fun x => x.id)
    rw [hsf]
    obtain ⟨t, ht⟩ := sessAfterL_ids b.losses
      (sessAfterS (sessAfterA cfg now (sessAfterU { db := db } b.users)
        b.assay_results) b.spoil_records)
    rw [ht]
    rw [(sessAfterS_frame b.spoil_records _).2.2,
      (sessAfterA_frame cfg now b.assay_results _).2.2,
      (sessAfterU_frame b.users { db := db }).2.2]
    rw [show (mLosses ({ db := db } : Sess)).map (fun x => x.id) =
      db.losses.map (fun x => x.id) from by simp [mLosses]]
    rw [show db.losses.length = (db.losses.map (fun x => x.id)).length from by simp]
    exact take_length_append _ _

theorem sync_preserves_ids_witness :
    (fxTenOut.sess.db.users.map (fun u => u.id)).take fxDb.users.length =
      fxDb.users.map (fun u => u.id) ∧
    (fxTenOut.sess.db.assays.map (fun a => a.id)).take fxDb.assays.length =
      fxDb.assays.map (fun a => a.id) ∧
    (fxTenOut.sess.db.spoils.map (fun s => s.id)).take fxDb.spoils.length =
      fxDb.spoils.map (fun s => s.id) ∧
    (fxTenOut.sess.db.losses.map (fun s => s.id)).take fxDb.losses.length =
      fxDb.losses.map (fun s => s.id) :=
  (sync_preserves_ids cfgIos 0 fxDb fxTenBatch).2.2.2.2 fxTenOut (by rfl)
/-! ## Absorption: once a record has been reconciled into the commit-level
content, re-processing it is a no-op (the stored timestamp is never strictly
beaten by the same record again) -/

end AssayBackend
